import Mathlib

/-!
The auth-info writers and the OpenTelemetry transport of the go-openapi runtime client: a
shallow embedding of `client/auth_info.go` and `client/opentelemetry.go`.

* Go `error` values are `Option Err`; `fmt.Errorf("p: %w", err)` is `Err.wrap "p: " err`.
* The interfaces the package consumes (`runtime.ClientRequest`, `runtime.ClientTransport`,
  the OpenTelemetry API) are not part of the package.  The request is an abstract type with
  the interface methods as a type class, the wrapped transport is a strategy tree that can
  do nothing but invoke the two hooks of the operation and return, and the tracing API is a
  log of the calls made on it.
* Code that mutates through a pointer is written in state-passing style.
-/

namespace Client

/-! ## Errors -/

/-- A Go `error`: a leaf error or an error wrapped by `fmt.Errorf` with the verb `%w`. -/
inductive Err where
  | new (msg : String)
  | wrap (pre : String) (inner : Err)
  deriving DecidableEq, Repr

/-- The method `Error()`. -/
def Err.Error : Err → String
  | .new msg => msg
  | .wrap pre inner => pre ++ inner.Error

/-- The method `Unwrap()` of the error `fmt.Errorf` builds with `%w`. -/
def Err.Unwrap : Err → Option Err
  | .new _ => none
  | .wrap _ inner => some inner

/-- The body `if err != nil { return fmt.Errorf(pre+"%w", err) }; return nil`. -/
def wrapErr (pre : String) : Option Err → Option Err
  | some err => some (Err.wrap pre err)
  | none => none

/-! ## The request interface -/

/-- A multi-valued string map (`http.Header`, `url.Values`). -/
abbrev Values := List (String × List String)

/-- A `strfmt.Registry` handle. -/
structure Registry where
  id : Nat
  deriving DecidableEq, Repr

/-- The part of `runtime.ClientRequest` the package uses.  A setter returns the request it
leaves behind and its error. -/
class ClientRequest (ρ : Type) where
  SetHeaderParam : ρ → String → List String → ρ × Option Err
  SetQueryParam : ρ → String → List String → ρ × Option Err
  GetHeaderParams : ρ → Values
  GetQueryParams : ρ → Values

/-- A non-nil `runtime.ClientAuthInfoWriter`: `AuthenticateRequest(r, reg)` as a function of
the request and the (possibly nil) registry, giving the request it leaves and its error. -/
abbrev ClientAuthInfoWriter (ρ : Type) := ρ → Option Registry → ρ × Option Err

/-- The constant `runtime.HeaderAuthorization`. -/
def HeaderAuthorization : String := "Authorization"

/-! ## `encoding/base64` -/

/-- The bytes of a string (its UTF-8 encoding), as numbers below 256. -/
def utf8Char (c : Char) : List Nat :=
  let n := c.toNat
  if n < 0x80 then [n]
  else if n < 0x800 then [0xC0 + n / 0x40, 0x80 + n % 0x40]
  else if n < 0x10000 then [0xE0 + n / 0x1000, 0x80 + n / 0x40 % 0x40, 0x80 + n % 0x40]
  else [0xF0 + n / 0x40000, 0x80 + n / 0x1000 % 0x40, 0x80 + n / 0x40 % 0x40, 0x80 + n % 0x40]

/-- The conversion `[]byte(s)`. -/
def bytesOf (s : String) : List Nat :=
  s.data.flatMap utf8Char

/-- The alphabet of `base64.StdEncoding`. -/
def encodeStd : List Char :=
  "ABCDEFGHIJKLMNOPQRSTUVWXYZabcdefghijklmnopqrstuvwxyz0123456789+/".data

/-- The character for a 6-bit value. -/
def b64Char (n : Nat) : Char :=
  encodeStd.getD (n % 64) 'A'

/-- The padded base64 encoding of a byte sequence: three bytes give four characters, a
remainder of one or two bytes is padded with `=`. -/
def b64Encode : List Nat → List Char
  | a :: b :: c :: rest =>
    b64Char (a / 4) :: b64Char (a % 4 * 16 + b / 16) :: b64Char (b % 16 * 4 + c / 64)
      :: b64Char (c % 64) :: b64Encode rest
  | [a, b] => [b64Char (a / 4), b64Char (a % 4 * 16 + b / 16), b64Char (b % 16 * 4), '=']
  | [a] => [b64Char (a / 4), b64Char (a % 4 * 16), '=', '=']
  | [] => []

/-- The call `base64.StdEncoding.EncodeToString(src)`. -/
def EncodeToString (src : List Nat) : String :=
  String.mk (b64Encode src)

/-! ## `auth_info.go` -/

section AuthInfo

variable {ρ : Type}

/-- PassThroughAuth never manipulates the request. -/
def PassThroughAuth : ClientAuthInfoWriter ρ :=
  fun r _ => (r, none)

/-- BasicAuth provides a basic auth info writer. -/
def BasicAuth [ClientRequest ρ] (username password : String) : ClientAuthInfoWriter ρ :=
  fun r _ =>
    let encoded := EncodeToString (bytesOf (username ++ ":" ++ password))
    let (r1, err) := ClientRequest.SetHeaderParam r HeaderAuthorization ["Basic " ++ encoded]
    (r1, wrapErr "setting 'Authorization' header: " err)

/-- APIKeyAuth provides an API key auth info writer; `none` is the nil writer. -/
def APIKeyAuth [ClientRequest ρ] (name in_ value : String) : Option (ClientAuthInfoWriter ρ) :=
  if in_ = "query" then
    some (fun r _ =>
      let (r1, err) := ClientRequest.SetQueryParam r name [value]
      (r1, wrapErr ("setting '" ++ name ++ "' query parameter: ") err))
  else if in_ = "header" then
    some (fun r _ =>
      let (r1, err) := ClientRequest.SetHeaderParam r name [value]
      (r1, wrapErr ("setting '" ++ name ++ "' header: ") err))
  else
    none

/-- BearerToken provides a header based oauth2 bearer access token auth info writer. -/
def BearerToken [ClientRequest ρ] (token : String) : ClientAuthInfoWriter ρ :=
  fun r _ =>
    let (r1, err) := ClientRequest.SetHeaderParam r HeaderAuthorization ["Bearer " ++ token]
    (r1, wrapErr "setting 'Authorization' header: " err)

/-- The loop `for _, auth := range auths` in the writer `Compose` returns. -/
def Compose.loop : List (Option (ClientAuthInfoWriter ρ)) → ρ → ρ × Option Err
  | [], r => (r, none)
  | none :: auths, r => Compose.loop auths r
  | some auth :: auths, r =>
    match auth r none with
    | (r1, some err) => (r1, some (Err.wrap "authenticating request: " err))
    | (r1, none) => Compose.loop auths r1

/-- Compose combines multiple ClientAuthInfoWriters into a single one. -/
def Compose (auths : List (Option (ClientAuthInfoWriter ρ))) : ClientAuthInfoWriter ρ :=
  fun r _ => Compose.loop auths r

/-- The reading of the composer in the specification: apply each writer in order and stop at
the first error.  Gives the request as the last writer invoked leaves it, the number of
writers invoked, and the first error. -/
def applyInOrder : List (ClientAuthInfoWriter ρ) → ρ → ρ × Nat × Option Err
  | [], r => (r, 0, none)
  | w :: ws, r =>
    match w r none with
    | (r1, some err) => (r1, 1, some err)
    | (r1, none) =>
      let (r2, n, err) := applyInOrder ws r1
      (r2, n + 1, err)

/-- The writer `w` made observable: next to the request it keeps a list to which every
invocation adds the position `i` of the writer and the registry it was given. -/
def recording (i : Nat) (w : ClientAuthInfoWriter ρ) :
    ClientAuthInfoWriter (ρ × List (Nat × Option Registry)) :=
  fun s reg =>
    let (r1, err) := w s.1 reg
    ((r1, s.2 ++ [(i, reg)]), err)

/-- The writers of a list made observable, numbered from `i`. -/
def recordingFrom (i : Nat) :
    List (ClientAuthInfoWriter ρ) → List (ClientAuthInfoWriter (ρ × List (Nat × Option Registry)))
  | [] => []
  | w :: ws => recording i w :: recordingFrom (i + 1) ws

end AuthInfo

/-- An in-memory request implementing the interface, used for the concrete examples: a
setter replaces the values stored under the key and rejects the empty key. -/
structure MemRequest where
  header : Values
  query : Values
  deriving DecidableEq, Repr

/-- Replace the values stored under a key. -/
def setValues (m : Values) (key : String) (vs : List String) : Values :=
  m.filter (fun kv => kv.1 != key) ++ [(key, vs)]

instance : ClientRequest MemRequest where
  SetHeaderParam r key vs :=
    if key = "" then (r, some (Err.new "empty header name"))
    else ({ r with header := setValues r.header key vs }, none)
  SetQueryParam r key vs :=
    if key = "" then (r, some (Err.new "empty query parameter name"))
    else ({ r with query := setValues r.query key vs }, none)
  GetHeaderParams r := r.header
  GetQueryParams r := r.query

/-! ## The OpenTelemetry API, as far as the package uses it -/

/-- A `trace.TracerProvider`, identified by a number. -/
structure TracerProvider where
  id : Nat
  deriving DecidableEq, Repr

/-- A `trace.Tracer`: the provider it was obtained from, with the instrumentation name and
version given to `TracerProvider.Tracer`. -/
structure Tracer where
  provider : TracerProvider
  name : String
  version : String
  deriving DecidableEq, Repr

/-- The type `trace.SpanKind`. -/
inductive SpanKind where
  | SpanKindUnspecified
  | SpanKindInternal
  | SpanKindServer
  | SpanKindClient
  | SpanKindProducer
  | SpanKindConsumer
  deriving DecidableEq, Repr

/-- The method `SpanKind.String()`. -/
def SpanKind.String : SpanKind → String
  | .SpanKindInternal => "internal"
  | .SpanKindServer => "server"
  | .SpanKindClient => "client"
  | .SpanKindProducer => "producer"
  | .SpanKindConsumer => "consumer"
  | .SpanKindUnspecified => "unspecified"

/-- A `trace.SpanStartOption`: the span kind option, or any other one by number. -/
inductive SpanStartOption where
  | WithSpanKind (kind : SpanKind)
  | other (id : Nat)
  deriving DecidableEq, Repr

/-- The type `codes.Code`. -/
inductive Code where
  | Unset
  | Error
  | Ok
  deriving DecidableEq, Repr

/-- The value of an `attribute.KeyValue` built by `attribute.String` or `attribute.Int`. -/
inductive AttrValue where
  | String (s : String)
  | Int (n : Int)
  deriving DecidableEq, Repr

/-- What `trace.SpanFromContext` finds in a context: whether the span context of the span
is valid, and the tracer provider of the span. -/
structure ContextSpan where
  valid : Bool
  provider : TracerProvider
  deriving DecidableEq, Repr

/-- A non-nil `context.Context`: the span it carries, if any, and a number for the rest. -/
structure Context where
  id : Nat
  span : Option ContextSpan
  deriving DecidableEq, Repr

/-- A `runtime.ClientResponse`, as far as the package reads it. -/
structure ClientResponse where
  Code : Int
  Message : String
  deriving DecidableEq, Repr

/-- A `runtime.Consumer` handle. -/
structure Consumer where
  id : Nat
  deriving DecidableEq, Repr

/-- One observable call.  Spans are numbered in the order they are started.  The first six
are calls on the tracing API; `writeToRequest` and `readResponse` are the transport invoking
the `Params` and `Reader` of the operation it was given; `params` and `reader` are the
bodies of the hooks the caller supplied. -/
inductive Event where
  | Start (span : Nat) (tracer : Tracer) (parent : Option Context) (name : String)
      (opts : List SpanStartOption)
  | SetAttributes (span : Nat) (kv : List (String × AttrValue))
  | SetStatus (span : Nat) (code : Code) (description : String)
  | RecordError (span : Nat) (err : Err)
  | End (span : Nat)
  | Inject (propagator : Nat) (parent : Option Context) (span : Nat)
  | writeToRequest (reg : Option Registry)
  | readResponse (response : ClientResponse) (consumer : Consumer)
  | params (reg : Option Registry)
  | reader (response : ClientResponse) (consumer : Consumer)
  deriving DecidableEq, Repr

/-- The state outside the request: the log of observable calls, the number of spans started
so far, and the `span` variables of the calls of `Submit` (a variable outlives its call
because the hooks `Submit` installs capture it): how many were declared and what each
holds, `none` for nil. -/
structure World where
  events : List Event
  spans : Nat
  vars : Nat
  cells : Nat → Option Nat

/-- Append a call to the log. -/
def World.log (w : World) (e : Event) : World :=
  { w with events := w.events ++ [e] }

/-- Read a `span` variable; `none` is nil. -/
def World.span (w : World) (cell : Nat) : Option Nat :=
  w.cells cell

/-- Assign a `span` variable. -/
def World.setSpan (w : World) (cell : Nat) (s : Nat) : World :=
  { w with cells := fun i => if i = cell then some s else w.cells i }

/-- Declare a `span` variable, `var span trace.Span`; it is number `w.vars`. -/
def World.declare (w : World) : World :=
  { w with vars := w.vars + 1, cells := fun i => if i = w.vars then none else w.cells i }

/-- The state of a process in which nothing has happened yet. -/
def World.init : World :=
  { events := [], spans := 0, vars := 0, cells := fun _ => none }

/-- How a call comes back: it returns, or it panics (a nil function or interface value was
called).  Both carry the state at that point. -/
inductive Outcome (β : Type) where
  | ok (w : World) (v : β)
  | panic (w : World)

/-- The state an outcome carries. -/
def Outcome.world {β : Type} : Outcome β → World
  | .ok w _ => w
  | .panic w => w

/-- What a call returned; `none` when it panicked. -/
def Outcome.result {β : Type} : Outcome β → Option β
  | .ok _ v => some v
  | .panic _ => none

/-- A `propagation.TextMapPropagator`: a number, and what `Inject(ctx, carrier)` does to the
request whose header map the carrier is, for the context `ctx` that carries span `span` on
top of `parent`. -/
structure TextMapPropagator (ρ : Type) where
  id : Nat
  Inject : Option Context → Nat → ρ → ρ

/-- The method `span.SetAttributes`. -/
def SetAttributes (span : Nat) (kv : List (String × AttrValue)) (w : World) : World :=
  w.log (.SetAttributes span kv)

/-- The method `span.SetStatus`. -/
def SetStatus (span : Nat) (status : Code × String) (w : World) : World :=
  w.log (.SetStatus span status.1 status.2)

/-- The method `span.RecordError`. -/
def RecordError (span : Nat) (err : Err) (w : World) : World :=
  w.log (.RecordError span err)

/-- The method `span.End`. -/
def End (span : Nat) (w : World) : World :=
  w.log (.End span)

/-- The method `tracer.Start`: a new span, numbered by the count of spans so far. -/
def Tracer.Start (tracer : Tracer) (ctx : Option Context) (name : String)
    (opts : List SpanStartOption) (w : World) : Nat × World :=
  (w.spans, { w with events := w.events ++ [.Start w.spans tracer ctx name opts],
                     spans := w.spans + 1 })

/-! ## The operation and the wrapped transport -/

/-- A `runtime.ClientRequestWriter`: `WriteToRequest(req, reg)`. -/
abbrev ClientRequestWriter (ρ : Type) :=
  ρ → Option Registry → World → Outcome (ρ × Option Err)

/-- A `runtime.ClientResponseReader`: `ReadResponse(response, consumer)`. -/
abbrev ClientResponseReader (α : Type) :=
  ClientResponse → Consumer → World → Outcome (α × Option Err)

/-- A request writer supplied by the caller: a function of its arguments that has no access
to the tracing state. -/
def callerParams {ρ : Type} (f : ρ → Option Registry → ρ × Option Err) : ClientRequestWriter ρ :=
  fun req reg w => .ok (w.log (.params reg)) (f req reg)

/-- A response reader supplied by the caller. -/
def callerReader {α : Type} (f : ClientResponse → Consumer → α × Option Err) :
    ClientResponseReader α :=
  fun response consumer w => .ok (w.log (.reader response consumer)) (f response consumer)

/-- The fields of `runtime.ClientOperation` other than the two hooks.  `AuthInfo` and
`Client` are handles; `Context` is `none` for a nil context. -/
structure OperationInfo where
  ID : String
  Method : String
  PathPattern : String
  ProducesMediaTypes : List String
  ConsumesMediaTypes : List String
  Schemes : List String
  AuthInfo : Option Nat
  Context : Option Context
  Client : Option Nat
  deriving DecidableEq, Repr

/-- The type `runtime.ClientOperation`. -/
structure ClientOperation (ρ α : Type) extends OperationInfo where
  Params : ClientRequestWriter ρ
  Reader : ClientResponseReader α

/-- What a transport does with an operation: it returns a result and an error, or it invokes
the request writer on a request, or the response reader on a response, and goes on from
what the hook gave back. -/
inductive Prog (ρ α : Type) where
  | ret (res : α) (err : Option Err)
  | writeToRequest (req : ρ) (reg : Option Registry) (k : ρ → Option Err → Prog ρ α)
  | readResponse (response : ClientResponse) (consumer : Consumer)
      (k : α → Option Err → Prog ρ α)

/-- A `runtime.ClientTransport`: its behaviour on each operation. -/
abbrev ClientTransport (ρ α : Type) := OperationInfo → Prog ρ α

/-- Run a transport behaviour against the hooks of the operation. -/
def Prog.run {ρ α : Type} (params : ClientRequestWriter ρ) (reader : ClientResponseReader α) :
    Prog ρ α → World → Outcome (α × Option Err)
  | .ret res err, w => .ok w (res, err)
  | .writeToRequest req reg k, w =>
    match params req reg (w.log (.writeToRequest reg)) with
    | .ok w1 (req1, err) => (k req1 err).run params reader w1
    | .panic w1 => .panic w1
  | .readResponse response consumer k, w =>
    match reader response consumer (w.log (.readResponse response consumer)) with
    | .ok w1 (res, err) => (k res err).run params reader w1
    | .panic w1 => .panic w1

/-- The method `Submit` of the wrapped transport. -/
def ClientTransport.Submit {ρ α : Type} (transport : ClientTransport ρ α)
    (op : ClientOperation ρ α) (w : World) : Outcome (α × Option Err) :=
  (transport op.toOperationInfo).run op.Params op.Reader w

/-! ## `opentelemetry.go` -/

section OpenTelemetry

variable {ρ α : Type}

def instrumentationVersion : String := "1.0.0"

def tracerName : String := "go-openapi"

/-- The process-wide state and the library functions the package reads:
`otel.GetTracerProvider()`, `otel.GetTextMapPropagator()`,
`semconv.SpanStatusFromHTTPStatusCodeAndSpanKind` and `strings.ToLower`. -/
structure Otel (ρ : Type) where
  GetTracerProvider : TracerProvider
  GetTextMapPropagator : TextMapPropagator ρ
  SpanStatusFromHTTPStatusCodeAndSpanKind : Int → SpanKind → Code × String
  ToLower : String → String

/-- The type `config`; `none` is a nil field. -/
structure config (ρ : Type) where
  Tracer : Option Tracer
  Propagator : Option (TextMapPropagator ρ)
  SpanStartOptions : List SpanStartOption
  SpanNameFormatter : Option (OperationInfo → String)
  TracerProvider : Option TracerProvider

/-- The values of `OpenTelemetryOpt`: its method `apply` is unexported and `optionFunc` is
its only implementation, so an option is one of the four constructors below. -/
inductive OpenTelemetryOpt (ρ : Type) where
  | WithTracerProvider (provider : Option TracerProvider)
  | WithPropagators (ps : Option (TextMapPropagator ρ))
  | WithSpanOptions (opts : List SpanStartOption)
  | WithSpanNameFormatter (f : Option (OperationInfo → String))

/-- The method `apply`: the function each constructor wraps. -/
def OpenTelemetryOpt.apply : OpenTelemetryOpt ρ → config ρ → config ρ
  | .WithTracerProvider provider, c =>
    match provider with
    | some p => { c with TracerProvider := some p }
    | none => c
  | .WithPropagators ps, c =>
    match ps with
    | some p => { c with Propagator := some p }
    | none => c
  | .WithSpanOptions opts, c => { c with SpanStartOptions := c.SpanStartOptions ++ opts }
  | .WithSpanNameFormatter f, c => { c with SpanNameFormatter := f }

def defaultTransportFormatter (otel : Otel ρ) (op : OperationInfo) : String :=
  if op.ID != "" then op.ID
  else otel.ToLower op.Method ++ "_" ++ op.PathPattern

/-- The type `openTelemetryTransport`. -/
structure openTelemetryTransport (ρ α : Type) where
  transport : ClientTransport ρ α
  host : String
  tracer : Option Tracer
  config : config ρ

/-- Version is the current release version of the go-runtime instrumentation. -/
def version : String := instrumentationVersion

def newTracer (tp : TracerProvider) : Tracer :=
  { provider := tp, name := tracerName, version := version }

def newConfig (otel : Otel ρ) (opts : List (OpenTelemetryOpt ρ)) : config ρ :=
  let c : config ρ :=
    { Tracer := none, Propagator := some otel.GetTextMapPropagator, SpanStartOptions := [],
      SpanNameFormatter := none, TracerProvider := none }
  let c := opts.foldl (fun c opt => opt.apply c) c
  -- Tracer is only initialized if manually specified.
  match c.TracerProvider with
  | some tp => { c with Tracer := some (newTracer tp) }
  | none => c

def newOpenTelemetryTransport (otel : Otel ρ) (transport : ClientTransport ρ α) (host : String)
    (opts : List (OpenTelemetryOpt ρ)) : openTelemetryTransport ρ α :=
  let defaultOpts : List (OpenTelemetryOpt ρ) :=
    [ .WithSpanOptions [.WithSpanKind .SpanKindClient],
      .WithSpanNameFormatter (some (defaultTransportFormatter otel)),
      .WithPropagators (some otel.GetTextMapPropagator),
      .WithTracerProvider (some otel.GetTracerProvider) ]
  { transport := transport, host := host, tracer := none,
    config := newConfig otel (defaultOpts ++ opts) }

/-- The choice of tracer at the head of `newOpenTelemetrySpan`. -/
def resolveTracer (otel : Otel ρ) (t : openTelemetryTransport ρ α) (ctx : Option Context) :
    Tracer :=
  match t.tracer with
  | some tracer => tracer
  | none =>
    match ctx.bind (fun c => c.span) with
    | some span => if span.valid then newTracer span.provider
                   else newTracer otel.GetTracerProvider
    | none => newTracer otel.GetTracerProvider

/-- The method `newOpenTelemetrySpan`, called with the header map of the request `req`;
gives the request as the injection leaves it and the span. -/
def openTelemetryTransport.newOpenTelemetrySpan (otel : Otel ρ) (t : openTelemetryTransport ρ α)
    (op : OperationInfo) (req : ρ) (w : World) : Outcome (ρ × Nat) :=
  let ctx := op.Context
  let tracer := resolveTracer otel t ctx
  match t.config.SpanNameFormatter with
  | none => .panic w
  | some formatter =>
    let (span, w1) := tracer.Start ctx (formatter op) t.config.SpanStartOptions w
    let scheme := op.Schemes.headD ""
    let w2 := SetAttributes span
      [ ("net.peer.name", .String t.host),
        ("http.route", .String op.PathPattern),
        ("http.method", .String op.Method),
        ("span.kind", .String SpanKind.SpanKindClient.String),
        ("http.scheme", .String scheme) ] w1
    match t.config.Propagator with
    | none => .panic w2
    | some propagator =>
      .ok (w2.log (.Inject propagator.id ctx span)) (propagator.Inject ctx span req, span)

/-- The request writer `Submit` installs, a closure over the `span` variable numbered `cell`
and the original writer `params`. -/
def tracedParams (otel : Otel ρ) (t : openTelemetryTransport ρ α) (op : OperationInfo)
    (cell : Nat) (params : ClientRequestWriter ρ) : ClientRequestWriter ρ :=
  fun req reg w =>
    match t.newOpenTelemetrySpan otel op req w with
    | .panic w1 => .panic w1
    | .ok w1 (req1, span) =>
      match params req1 reg (w1.setSpan cell span) with
      | .panic w2 => .panic w2
      | .ok w2 (req2, some err) => .ok w2 (req2, some (Err.wrap "writing to request: " err))
      | .ok w2 (req2, none) => .ok w2 (req2, none)

/-- The response reader `Submit` installs. -/
def tracedReader (otel : Otel ρ) (cell : Nat) (reader : ClientResponseReader α) :
    ClientResponseReader α :=
  fun response consumer w =>
    let w1 :=
      match w.span cell with
      | some span =>
        let statusCode := response.Code
        SetStatus span
          (otel.SpanStatusFromHTTPStatusCodeAndSpanKind statusCode .SpanKindClient)
          (SetAttributes span [("http.status_code", .Int statusCode)] w)
      | none => w
    match reader response consumer w1 with
    | .panic w2 => .panic w2
    | .ok w2 (res, some err) => .ok w2 (res, some (Err.wrap "reading response: " err))
    | .ok w2 (res, none) => .ok w2 (res, none)

/-- The deferred function of `Submit`: `if span != nil { span.End() }`, run when `Submit`
returns and when it panics. -/
def deferred {β : Type} (cell : Nat) : Outcome β → Outcome β
  | .ok w v =>
    match w.span cell with
    | some span => .ok (End span w) v
    | none => .ok w v
  | .panic w =>
    match w.span cell with
    | some span => .panic (End span w)
    | none => .panic w

/-- The method `Submit`.  The operation is passed by pointer, so the first component is the
operation as the call leaves it. -/
def openTelemetryTransport.Submit (otel : Otel ρ) (t : openTelemetryTransport ρ α)
    (op : ClientOperation ρ α) (w : World) : ClientOperation ρ α × Outcome (α × Option Err) :=
  match op.Context with
  | none =>
    match t.transport.Submit op w with
    | .ok w1 (res, some err) => (op, .ok w1 (res, some (Err.wrap "submitting: " err)))
    | .ok w1 (res, none) => (op, .ok w1 (res, none))
    | .panic w1 => (op, .panic w1)
  | some _ =>
    let params := op.Params
    let reader := op.Reader
    let cell := w.vars
    let op1 : ClientOperation ρ α :=
      { op with Params := tracedParams otel t op.toOperationInfo cell params,
                Reader := tracedReader otel cell reader }
    (op1, deferred cell
      (match t.transport.Submit op1 w.declare with
       | .ok w1 (submit, some err) =>
         let w2 :=
           match w1.span cell with
           | some span => SetStatus span (Code.Error, err.Error) (RecordError span err w1)
           | none => w1
         .ok w2 (submit, some (Err.wrap "submitting with opentelemetry: " err))
       | .ok w1 (submit, none) => .ok w1 (submit, none)
       | .panic w1 => .panic w1))

end OpenTelemetry

/-! ## Reading the log -/

/-- The span a call starts. -/
def Event.started? : Event → Option Nat
  | .Start span _ _ _ _ => some span
  | _ => none

/-- The span a call ends. -/
def Event.ended? : Event → Option Nat
  | .End span => some span
  | _ => none

/-- The span a call records an error on, with the error. -/
def Event.recorded? : Event → Option (Nat × Err)
  | .RecordError span err => some (span, err)
  | _ => none

/-- The span a call sets the status of, with the status. -/
def Event.status? : Event → Option (Nat × Code × String)
  | .SetStatus span code description => some (span, code, description)
  | _ => none

/-- Whether the call is the transport invoking the request writer of the operation. -/
def Event.isWrite : Event → Bool
  | .writeToRequest _ => true
  | _ => false

/-- The spans started, in order. -/
def started (es : List Event) : List Nat :=
  es.filterMap Event.started?

/-- The spans ended, in order. -/
def ended (es : List Event) : List Nat :=
  es.filterMap Event.ended?

/-- The errors recorded, in order, each with its span. -/
def recorded (es : List Event) : List (Nat × Err) :=
  es.filterMap Event.recorded?

/-- The statuses set on a span, in order. -/
def statuses (span : Nat) (es : List Event) : List (Code × String) :=
  (es.filterMap Event.status?).filterMap (fun x => if x.1 = span then some x.2 else none)

/-- How many times the transport invoked the request writer of the operation. -/
def writes (es : List Event) : Nat :=
  es.countP Event.isWrite

/-- The tracers of the calls that start a span, in order. -/
def tracers (es : List Event) : List Tracer :=
  es.filterMap (fun e => match e with
    | .Start _ tracer _ _ _ => some tracer
    | _ => none)

section Traces

variable {ρ α : Type}

/-- The calls one invocation of the installed request writer makes over a writer of the
caller, `span` being the number of the span it starts. -/
def writeEvents (otel : Otel ρ) (t : openTelemetryTransport ρ α) (op : OperationInfo)
    (formatter : OperationInfo → String) (propagator : TextMapPropagator ρ)
    (reg : Option Registry) (span : Nat) : List Event :=
  [ .Start span (resolveTracer otel t op.Context) op.Context (formatter op)
      t.config.SpanStartOptions,
    .SetAttributes span
      [ ("net.peer.name", .String t.host),
        ("http.route", .String op.PathPattern),
        ("http.method", .String op.Method),
        ("span.kind", .String "client"),
        ("http.scheme", .String (op.Schemes.headD "")) ],
    .Inject propagator.id op.Context span,
    .params reg ]

/-- The calls one invocation of the installed response reader makes over a reader of the
caller, `span` being what the `span` variable holds. -/
def readEvents (otel : Otel ρ) (response : ClientResponse) (consumer : Consumer)
    (span : Option Nat) : List Event :=
  (match span with
   | some s =>
     [ .SetAttributes s [("http.status_code", .Int response.Code)],
       .SetStatus s (otel.SpanStatusFromHTTPStatusCodeAndSpanKind response.Code .SpanKindClient).1
         (otel.SpanStatusFromHTTPStatusCodeAndSpanKind response.Code .SpanKindClient).2 ]
   | none => [])
  ++ [.reader response consumer]

end Traces

/-- The calls `Submit` makes after the wrapped transport came back with the error `err`,
`span` being what the `span` variable holds. -/
def closeEvents (span : Option Nat) (err : Option Err) : List Event :=
  match span with
  | none => []
  | some s =>
    (match err with
     | some e => [.RecordError s e, .SetStatus s .Error e.Error]
     | none => [])
    ++ [.End s]

/-! ## Examples -/

/-- A process whose global tracer provider is number 0, whose global propagator writes the
span into the header `Traceparent` (the key as `http.Header.Set` stores it), whose status
convention reports codes from 400 on as errors, and whose `strings.ToLower` is given on
strings of ASCII characters, where it lowers the letters `A` to `Z`. -/
def otel0 : Otel MemRequest :=
  { GetTracerProvider := ⟨0⟩,
    GetTextMapPropagator :=
      ⟨0, fun _ span r => { r with header := setValues r.header "Traceparent" [toString span] }⟩,
    SpanStatusFromHTTPStatusCodeAndSpanKind :=
      fun code _ => if code < 400 then (.Unset, "") else (.Error, ""),
    ToLower := fun s => String.mk (s.data.map Char.toLower) }

/-- The information of `GET /widgets/{id}` with the context `ctx`. -/
def widgetsInfo (ctx : Option Context) : OperationInfo :=
  { ID := "", Method := "GET", PathPattern := "/widgets/{id}", ProducesMediaTypes := [],
    ConsumesMediaTypes := [], Schemes := ["https"], AuthInfo := none, Context := ctx,
    Client := none }

/-- The operation `GET /widgets/{id}` with the context `ctx`, a writer that sets a query
parameter and a reader that gives back the status code. -/
def widgets (ctx : Option Context) : ClientOperation MemRequest Nat :=
  { widgetsInfo ctx with
    Params := callerParams (fun r _ => ClientRequest.SetQueryParam r "id" ["7"]),
    Reader := callerReader (fun response _ => (response.Code.toNat, none)) }

/-- A transport that fails before it builds the request, as the runtime does when no
producer is registered for the media type. -/
def failsEarly : ClientTransport MemRequest Nat :=
  fun _ => .ret 0 (some (Err.new "none of producers registered"))

/-- A transport that builds the request once and reads the response, here a 404. -/
def roundTrip : ClientTransport MemRequest Nat :=
  fun _ => .writeToRequest ⟨[], []⟩ (some ⟨1⟩) fun _ err =>
    match err with
    | some e => .ret 0 (some e)
    | none => .readResponse ⟨404, "Not Found"⟩ ⟨1⟩ fun res err => .ret res err

/-- A transport that builds the request, fails to send it, and builds it again. -/
def retries : ClientTransport MemRequest Nat :=
  fun _ => .writeToRequest ⟨[], []⟩ (some ⟨1⟩) fun _ _ =>
    .writeToRequest ⟨[], []⟩ (some ⟨1⟩) fun _ err =>
      match err with
      | some e => .ret 0 (some e)
      | none => .readResponse ⟨200, "OK"⟩ ⟨1⟩ fun res err => .ret res err

/-- A transport that builds the request and then fails to send it. -/
def failsLate : ClientTransport MemRequest Nat :=
  fun _ => .writeToRequest ⟨[], []⟩ (some ⟨1⟩) fun _ _ =>
    .ret 0 (some (Err.new "connection refused"))

/-! ## Reading the hooks and the options -/

/-- An outcome with its error wrapped:
`if err != nil { return res, fmt.Errorf(pre+"%w", err) }; return res, nil`. -/
def Outcome.wrap {β : Type} (pre : String) : Outcome (β × Option Err) → Outcome (β × Option Err)
  | .ok w v => .ok w (v.1, wrapErr pre v.2)
  | .panic w => .panic w

/-- The arguments of a call that starts a span. -/
def Event.start? : Event → Option (Nat × Tracer × Option Context × String × List SpanStartOption)
  | .Start span tracer parent name opts => some (span, tracer, parent, name, opts)
  | _ => none

/-- The calls that start a span, in order, each with its arguments. -/
def startCalls (es : List Event) : List (Nat × Tracer × Option Context × String × List SpanStartOption) :=
  es.filterMap Event.start?

/-- Whether the call is the body of a hook of the caller. -/
def Event.isHook : Event → Bool
  | .params _ => true
  | .reader _ _ => true
  | _ => false

/-- The calls of hooks of the caller, in order. -/
def hookCalls (es : List Event) : List Event :=
  es.filter Event.isHook

section Options

variable {ρ : Type}

/-- The tracer provider an option sets, if it sets one: `WithTracerProvider` of a non-nil
provider. -/
def OpenTelemetryOpt.provider? : OpenTelemetryOpt ρ → Option TracerProvider
  | .WithTracerProvider (some p) => some p
  | _ => none

/-- The propagator an option sets, if it sets one: `WithPropagators` of a non-nil
propagator. -/
def OpenTelemetryOpt.propagator? : OpenTelemetryOpt ρ → Option (TextMapPropagator ρ)
  | .WithPropagators (some p) => some p
  | _ => none

/-- The span-name formatter an option sets, if it sets one: `WithSpanNameFormatter` of any
function value, nil included. -/
def OpenTelemetryOpt.formatter? : OpenTelemetryOpt ρ → Option (Option (OperationInfo → String))
  | .WithSpanNameFormatter f => some f
  | _ => none

/-- The reading of the option list in the specification: the value supplied by the last
option of the list that sets the field, and the default when no option of the list sets
it. -/
def lastSet {β : Type} (sets : OpenTelemetryOpt ρ → Option β) (default : β)
    (opts : List (OpenTelemetryOpt ρ)) : β :=
  (opts.filterMap sets).getLast?.getD default

end Options

/-! ## Composition of auth writers -/

section AuthInfoProofs

variable {ρ : Type}

theorem Compose.loop_map_some (ws : List (ClientAuthInfoWriter ρ)) (r : ρ) :
    Compose.loop (ws.map some) r
      = ((applyInOrder ws r).1, wrapErr "authenticating request: " (applyInOrder ws r).2.2) := by
  induction ws generalizing r with
  | nil => rfl
  | cons w ws ih =>
    simp only [List.map_cons, Compose.loop, applyInOrder]
    rcases h : w r none with ⟨r1, _ | err⟩
    · simp only [ih]
    · simp only [wrapErr]

theorem Compose.loop_recording (ws : List (ClientAuthInfoWriter ρ)) (i : Nat) (r : ρ)
    (log : List (Nat × Option Registry)) :
    Compose.loop ((recordingFrom i ws).map some) (r, log)
      = (((applyInOrder ws r).1,
          log ++ (List.range' i (applyInOrder ws r).2.1).map (fun j => (j, none))),
         wrapErr "authenticating request: " (applyInOrder ws r).2.2) := by
  induction ws generalizing i r log with
  | nil => simp [recordingFrom, Compose.loop, applyInOrder, wrapErr]
  | cons w ws ih =>
    simp only [recordingFrom, List.map_cons, Compose.loop, applyInOrder, recording]
    rcases h : w r none with ⟨r1, _ | err⟩
    · simp only [ih, List.range'_succ, List.map_cons, List.append_assoc, List.singleton_append]
    · simp [wrapErr, List.range']

theorem applyInOrder_invoked (ws : List (ClientAuthInfoWriter ρ)) (r : ρ) :
    (applyInOrder ws r).2.1 ≤ ws.length
      ∧ ((applyInOrder ws r).2.2 = none → (applyInOrder ws r).2.1 = ws.length)
      ∧ ((applyInOrder ws r).2.2 ≠ none → 0 < (applyInOrder ws r).2.1) := by
  induction ws generalizing r with
  | nil => simp [applyInOrder]
  | cons w ws ih =>
    simp only [applyInOrder, List.length_cons]
    rcases h : w r none with ⟨r1, _ | err⟩
    · obtain ⟨h1, h2, _⟩ := ih r1
      exact ⟨Nat.succ_le_succ h1, fun h => congrArg Nat.succ (h2 h), fun _ => Nat.succ_pos _⟩
    · simp

theorem Compose.loop_all_nil (auths : List (Option (ClientAuthInfoWriter ρ)))
    (h : ∀ a ∈ auths, a = none) (r : ρ) : Compose.loop auths r = (r, none) := by
  induction auths with
  | nil => rfl
  | cons a auths ih =>
    have ha : a = none := h a (List.mem_cons_self _ _)
    subst ha
    simp only [Compose.loop]
    exact ih (fun b hb => h b (List.mem_cons_of_mem _ hb))

/-- C1: for writers `ws` that are all non-nil, the composed writer gives the request and the
error that applying the writers in order and stopping at the first error gives, the error
wrapped with `authenticating request: `; the writers invoked are those at the positions
`0 .. n-1` in that order, where `n` counts the writers up to and including the first one
that fails (all of them, and no error, when none fails). -/
theorem Compose_applies_in_order (ws : List (ClientAuthInfoWriter ρ)) (r : ρ)
    (reg : Option Registry) :
    Compose (ws.map some) r reg
        = ((applyInOrder ws r).1, wrapErr "authenticating request: " (applyInOrder ws r).2.2)
      ∧ Compose ((recordingFrom 0 ws).map some) (r, []) reg
        = (((applyInOrder ws r).1,
            (List.range (applyInOrder ws r).2.1).map (fun j => (j, none))),
           wrapErr "authenticating request: " (applyInOrder ws r).2.2)
      ∧ (applyInOrder ws r).2.1 ≤ ws.length
      ∧ ((applyInOrder ws r).2.2 = none → (applyInOrder ws r).2.1 = ws.length)
      ∧ ((applyInOrder ws r).2.2 ≠ none → 0 < (applyInOrder ws r).2.1) := by
  refine ⟨Compose.loop_map_some ws r, ?_, applyInOrder_invoked ws r⟩
  have h := Compose.loop_recording ws 0 r []
  simpa [Compose, List.range_eq_range'] using h

/-- An instance of C1: `BasicAuth`, then a writer that fails, then a bearer token.  Two
writers are invoked, the request keeps the header the first one set, and the error is the
one of the second, wrapped. -/
theorem Compose_applies_in_order_witness :
    Compose ([BasicAuth "alice" "s3cr3t", fun r _ => (r, some (Err.new "no credentials")),
          BearerToken "t"].map some) (⟨[], []⟩ : MemRequest) (some ⟨1⟩)
      = (⟨[("Authorization", ["Basic YWxpY2U6czNjcjN0"])], []⟩,
         some (Err.wrap "authenticating request: " (Err.new "no credentials")))
    ∧ Compose ((recordingFrom 0 [BasicAuth "alice" "s3cr3t",
          fun r _ => (r, some (Err.new "no credentials")), BearerToken "t"]).map some)
          ((⟨[], []⟩ : MemRequest), []) (some ⟨1⟩)
      = ((⟨[("Authorization", ["Basic YWxpY2U6czNjcjN0"])], []⟩, [(0, none), (1, none)]),
         some (Err.wrap "authenticating request: " (Err.new "no credentials"))) :=
  have h := Compose_applies_in_order [BasicAuth "alice" "s3cr3t",
    fun r _ => (r, some (Err.new "no credentials")), BearerToken "t"]
    (⟨[], []⟩ : MemRequest) (some ⟨1⟩)
  ⟨h.1.trans (by decide), h.2.1.trans (by decide)⟩

/-- C8: a composition of no writers, or of nil writers only, succeeds and gives back the
request it was given, so its headers and query parameters are what they were. -/
theorem Compose_all_nil [ClientRequest ρ] (auths : List (Option (ClientAuthInfoWriter ρ)))
    (h : ∀ a ∈ auths, a = none) (r : ρ) (reg : Option Registry) :
    Compose auths r reg = (r, none)
      ∧ ClientRequest.GetHeaderParams (Compose auths r reg).1 = ClientRequest.GetHeaderParams r
      ∧ ClientRequest.GetQueryParams (Compose auths r reg).1 = ClientRequest.GetQueryParams r := by
  have h1 : Compose auths r reg = (r, none) := Compose.loop_all_nil auths h r
  simp [h1]

/-- An instance of C8 on a request that already has a header and a query parameter. -/
theorem Compose_all_nil_witness :
    (∀ a ∈ ([none, none] : List (Option (ClientAuthInfoWriter MemRequest))), a = none)
      ∧ Compose [none, none] (⟨[("Accept", ["*/*"])], [("page", ["2"])]⟩ : MemRequest) (some ⟨1⟩)
        = (⟨[("Accept", ["*/*"])], [("page", ["2"])]⟩, none) :=
  ⟨by simp, (Compose_all_nil [none, none] (by simp) _ _).1⟩

/-- C9: with location `query` the API key writer is non-nil and does to the request what
the one call `SetQueryParam(name, value)` does, failing exactly when that call fails; with
location `header` the same with `SetHeaderParam(name, value)`.  On a request whose setters
keep to their own map, the first leaves the headers and the second the query parameters as
they were.  With any other location the writer is nil, and composing it gives a writer that
succeeds and leaves the request as it was. -/
theorem APIKeyAuth_locations [ClientRequest ρ] (name in_ value : String) (r : ρ)
    (reg : Option Registry) :
    (Option.map (fun w => w r reg) (APIKeyAuth name "query" value)
        = some ((ClientRequest.SetQueryParam r name [value]).1,
                wrapErr ("setting '" ++ name ++ "' query parameter: ")
                  (ClientRequest.SetQueryParam r name [value]).2)
      ∧ (wrapErr ("setting '" ++ name ++ "' query parameter: ")
            (ClientRequest.SetQueryParam r name [value]).2 = none
          ↔ (ClientRequest.SetQueryParam r name [value]).2 = none)
      ∧ ((∀ (x : ρ) k vs, ClientRequest.GetHeaderParams (ClientRequest.SetQueryParam x k vs).1
              = ClientRequest.GetHeaderParams x) →
          Option.map (fun w => ClientRequest.GetHeaderParams (w r reg).1)
              (APIKeyAuth name "query" value)
            = some (ClientRequest.GetHeaderParams r)))
    ∧ (Option.map (fun w => w r reg) (APIKeyAuth name "header" value)
        = some ((ClientRequest.SetHeaderParam r name [value]).1,
                wrapErr ("setting '" ++ name ++ "' header: ")
                  (ClientRequest.SetHeaderParam r name [value]).2)
      ∧ (wrapErr ("setting '" ++ name ++ "' header: ")
            (ClientRequest.SetHeaderParam r name [value]).2 = none
          ↔ (ClientRequest.SetHeaderParam r name [value]).2 = none)
      ∧ ((∀ (x : ρ) k vs, ClientRequest.GetQueryParams (ClientRequest.SetHeaderParam x k vs).1
              = ClientRequest.GetQueryParams x) →
          Option.map (fun w => ClientRequest.GetQueryParams (w r reg).1)
              (APIKeyAuth name "header" value)
            = some (ClientRequest.GetQueryParams r)))
    ∧ (in_ ≠ "query" → in_ ≠ "header" →
        (APIKeyAuth name in_ value : Option (ClientAuthInfoWriter ρ)) = none
          ∧ Compose [APIKeyAuth name in_ value] r reg = (r, none)) := by
  refine ⟨⟨?_, ?_, ?_⟩, ⟨?_, ?_, ?_⟩, ?_⟩
  · simp [APIKeyAuth]
  · cases (ClientRequest.SetQueryParam r name [value]).2 <;> simp [wrapErr]
  · intro hframe
    simp [APIKeyAuth, hframe]
  · simp [APIKeyAuth]
  · cases (ClientRequest.SetHeaderParam r name [value]).2 <;> simp [wrapErr]
  · intro hframe
    simp [APIKeyAuth, hframe]
  · intro hq hh
    have hnil : (APIKeyAuth name in_ value : Option (ClientAuthInfoWriter ρ)) = none := by
      simp [APIKeyAuth, hq, hh]
    exact ⟨hnil, by rw [hnil]; rfl⟩

/-- An instance of C9: on the in-memory request the query writer touches no header, the
header writer no query parameter, and the location `cookie` gives the nil writer. -/
theorem APIKeyAuth_locations_witness :
    Option.map (fun w => ClientRequest.GetHeaderParams (w (⟨[("Accept", ["*/*"])], []⟩ : MemRequest) none).1)
        (APIKeyAuth "api_key" "query" "abc123") = some [("Accept", ["*/*"])]
    ∧ Option.map (fun w => ClientRequest.GetQueryParams (w (⟨[("Accept", ["*/*"])], []⟩ : MemRequest) none).1)
        (APIKeyAuth "api_key" "header" "abc123") = some []
    ∧ Compose [APIKeyAuth "api_key" "cookie" "abc123"] (⟨[("Accept", ["*/*"])], []⟩ : MemRequest) none
        = (⟨[("Accept", ["*/*"])], []⟩, none) :=
  have h := APIKeyAuth_locations "api_key" "cookie" "abc123"
    (⟨[("Accept", ["*/*"])], []⟩ : MemRequest) none
  ⟨h.1.2.2 (fun x k vs => by
      show (ClientRequest.SetQueryParam x k vs).1.header = x.header
      simp only [ClientRequest.SetQueryParam]; split <;> rfl),
   h.2.1.2.2 (fun x k vs => by
      show (ClientRequest.SetHeaderParam x k vs).1.query = x.query
      simp only [ClientRequest.SetHeaderParam]; split <;> rfl),
   (h.2.2 (by decide) (by decide)).2⟩

/-- C10: the basic auth writer does to the request what the one call
`SetHeaderParam("Authorization", "Basic " + base64(username + ":" + password))` does, with
the padded standard encoding (checked on the test vectors of RFC 4648, section 10); for
`alice` and `s3cr3t` the value is `Basic YWxpY2U6czNjcjN0`, and composed with the API key
header `X-Key: abc123` the request ends with exactly these two headers. -/
theorem BasicAuth_sets_Authorization [ClientRequest ρ] (username password : String) (r : ρ)
    (reg : Option Registry) :
    BasicAuth username password r reg
        = ((ClientRequest.SetHeaderParam r "Authorization"
              ["Basic " ++ EncodeToString (bytesOf (username ++ ":" ++ password))]).1,
           wrapErr "setting 'Authorization' header: "
             (ClientRequest.SetHeaderParam r "Authorization"
              ["Basic " ++ EncodeToString (bytesOf (username ++ ":" ++ password))]).2)
      ∧ "Basic " ++ EncodeToString (bytesOf ("alice" ++ ":" ++ "s3cr3t")) = "Basic YWxpY2U6czNjcjN0"
      ∧ "Basic " ++ EncodeToString (bytesOf ("a:b" ++ ":" ++ "c:d")) = "Basic YTpiOmM6ZA=="
      ∧ "Basic " ++ EncodeToString (bytesOf ("é" ++ ":" ++ "€")) = "Basic w6k64oKs"
      ∧ [EncodeToString (bytesOf ""), EncodeToString (bytesOf "f"), EncodeToString (bytesOf "fo"),
          EncodeToString (bytesOf "foo"), EncodeToString (bytesOf "foob"),
          EncodeToString (bytesOf "fooba"), EncodeToString (bytesOf "foobar")]
        = ["", "Zg==", "Zm8=", "Zm9v", "Zm9vYg==", "Zm9vYmE=", "Zm9vYmFy"]
      ∧ Compose [some (BasicAuth "alice" "s3cr3t"), APIKeyAuth "X-Key" "header" "abc123"]
          (⟨[], []⟩ : MemRequest) none
        = (⟨[("Authorization", ["Basic YWxpY2U6czNjcjN0"]), ("X-Key", ["abc123"])], []⟩, none) := by
  refine ⟨rfl, by decide, by decide, by decide, by decide, by decide⟩

end AuthInfoProofs

/-! ## The traced transport -/

section OpenTelemetryProofs

variable {ρ α : Type}

theorem started_append (a b : List Event) : started (a ++ b) = started a ++ started b := by
  simp [started]

theorem ended_append (a b : List Event) : ended (a ++ b) = ended a ++ ended b := by
  simp [ended]

theorem recorded_append (a b : List Event) : recorded (a ++ b) = recorded a ++ recorded b := by
  simp [recorded]

theorem writes_append (a b : List Event) : writes (a ++ b) = writes a + writes b := by
  simp [writes]

theorem statuses_append (s : Nat) (a b : List Event) :
    statuses s (a ++ b) = statuses s a ++ statuses s b := by
  simp [statuses]

theorem tracedParams_caller (otel : Otel ρ) (t : openTelemetryTransport ρ α)
    (op : OperationInfo) (cell : Nat) (f : ρ → Option Registry → ρ × Option Err)
    (formatter : OperationInfo → String) (propagator : TextMapPropagator ρ)
    (hf : t.config.SpanNameFormatter = some formatter)
    (hp : t.config.Propagator = some propagator)
    (req : ρ) (reg : Option Registry) (w : World) :
    tracedParams otel t op cell (callerParams f) req reg w
      = .ok { events := w.events ++ writeEvents otel t op formatter propagator reg w.spans,
              spans := w.spans + 1, vars := w.vars,
              cells := fun i => if i = cell then some w.spans else w.cells i }
          ((f (propagator.Inject op.Context w.spans req) reg).1,
           wrapErr "writing to request: " (f (propagator.Inject op.Context w.spans req) reg).2) := by
  simp only [tracedParams, openTelemetryTransport.newOpenTelemetrySpan, hf, hp, Tracer.Start,
    SetAttributes, World.log, callerParams, World.setSpan, writeEvents, SpanKind.String]
  rcases h : f (propagator.Inject op.Context w.spans req) reg with ⟨r1, _ | err⟩ <;>
    simp [wrapErr]


theorem tracedReader_caller (otel : Otel ρ) (cell : Nat)
    (rd : ClientResponse → Consumer → α × Option Err)
    (response : ClientResponse) (consumer : Consumer) (w : World) :
    tracedReader otel cell (callerReader rd) response consumer w
      = .ok { w with events := w.events ++ readEvents otel response consumer (w.span cell) }
          ((rd response consumer).1, wrapErr "reading response: " (rd response consumer).2) := by
  simp only [tracedReader, callerReader, readEvents]
  rcases h : rd response consumer with ⟨res, _ | err⟩ <;>
    cases hs : w.span cell <;>
    simp [wrapErr, World.log, SetStatus, SetAttributes, World.span] at *

theorem readEvents_quiet (otel : Otel ρ) (response : ClientResponse) (consumer : Consumer)
    (span : Option Nat) :
    started (readEvents otel response consumer span) = []
      ∧ ended (readEvents otel response consumer span) = []
      ∧ recorded (readEvents otel response consumer span) = []
      ∧ writes (readEvents otel response consumer span) = 0 := by
  cases span <;>
    simp [readEvents, started, ended, recorded, writes, Event.started?, Event.ended?,
      Event.recorded?, Event.isWrite]

theorem writeEvents_counts (otel : Otel ρ) (t : openTelemetryTransport ρ α) (op : OperationInfo)
    (formatter : OperationInfo → String) (propagator : TextMapPropagator ρ)
    (reg : Option Registry) (span : Nat) :
    started (writeEvents otel t op formatter propagator reg span) = [span]
      ∧ ended (writeEvents otel t op formatter propagator reg span) = []
      ∧ recorded (writeEvents otel t op formatter propagator reg span) = []
      ∧ writes (writeEvents otel t op formatter propagator reg span) = 0 := by
  simp [writeEvents, started, ended, recorded, writes, Event.started?, Event.ended?,
    Event.recorded?, Event.isWrite]

/-- The run of a transport under the hooks `Submit` installs over hooks of the caller: it
returns, it starts one span for each invocation of the request writer, numbered on from the
spans there were, it ends none and records no error, and it leaves in the `span` variable
the last span it started. -/
theorem run_traced (otel : Otel ρ) (t : openTelemetryTransport ρ α)
    (op : OperationInfo) (cell : Nat) (f : ρ → Option Registry → ρ × Option Err)
    (rd : ClientResponse → Consumer → α × Option Err)
    (formatter : OperationInfo → String) (propagator : TextMapPropagator ρ)
    (hf : t.config.SpanNameFormatter = some formatter)
    (hp : t.config.Propagator = some propagator)
    (prog : Prog ρ α) (w : World) :
    ∃ w1 v d,
      prog.run (tracedParams otel t op cell (callerParams f))
          (tracedReader otel cell (callerReader rd)) w = .ok w1 v
        ∧ w1.events = w.events ++ d
        ∧ started d = List.range' w.spans (writes d)
        ∧ w1.spans = w.spans + writes d
        ∧ ended d = []
        ∧ recorded d = []
        ∧ w1.vars = w.vars
        ∧ w1.span cell = if writes d = 0 then w.span cell else some (w.spans + writes d - 1) := by
  induction prog generalizing w with
  | ret res err =>
    exact ⟨w, (res, err), [], rfl, by simp, by simp [started, writes], by simp [writes],
      by simp [ended], by simp [recorded], rfl, by simp [writes]⟩
  | writeToRequest req reg k ih =>
    simp only [Prog.run, tracedParams_caller otel t op cell f formatter propagator hf hp,
      World.log]
    obtain ⟨w1, v, d, hrun, hev, hst, hsp, hen, hrec, hvars, hcell⟩ :=
      ih (f (propagator.Inject op.Context w.spans req) reg).1
        (wrapErr "writing to request: " (f (propagator.Inject op.Context w.spans req) reg).2)
        { events := w.events ++ [.writeToRequest reg]
            ++ writeEvents otel t op formatter propagator reg w.spans,
          spans := w.spans + 1, vars := w.vars,
          cells := fun i => if i = cell then some w.spans else w.cells i }
    simp only [World.span] at hev hst hsp hvars hcell
    obtain ⟨c1, c2, c3, c4⟩ := writeEvents_counts otel t op formatter propagator reg w.spans
    have hw : writes ([Event.writeToRequest reg]
        ++ writeEvents otel t op formatter propagator reg w.spans ++ d) = writes d + 1 := by
      rw [writes_append, writes_append, c4]
      simp [writes, Event.isWrite]
      omega
    refine ⟨w1, v, [.writeToRequest reg]
        ++ writeEvents otel t op formatter propagator reg w.spans ++ d, hrun, ?_, ?_, ?_, ?_, ?_,
        ?_, ?_⟩
    · simp [hev]
    · rw [hw, started_append, started_append, c1, hst]
      simp [started, Event.started?, List.range'_succ]
    · rw [hw, hsp]; omega
    · rw [ended_append, ended_append, c2, hen]
      simp [ended, Event.ended?]
    · rw [recorded_append, recorded_append, c3, hrec]
      simp [recorded, Event.recorded?]
    · exact hvars
    · rw [hw]
      show w1.cells cell = _
      rw [hcell]
      by_cases h0 : writes d = 0
      · simp [h0, World.span]
      · simp only [h0, if_false, Nat.succ_ne_zero]
        congr 1
        omega
  | readResponse response consumer k ih =>
    simp only [Prog.run, tracedReader_caller, World.log, World.span]
    obtain ⟨w1, v, d, hrun, hev, hst, hsp, hen, hrec, hvars, hcell⟩ :=
      ih (rd response consumer).1 (wrapErr "reading response: " (rd response consumer).2)
        { events := w.events ++ [.readResponse response consumer]
            ++ readEvents otel response consumer (w.cells cell),
          spans := w.spans, vars := w.vars, cells := w.cells }
    simp only [World.span] at hev hst hsp hvars hcell
    obtain ⟨c1, c2, c3, c4⟩ := readEvents_quiet otel response consumer (w.cells cell)
    have hw : writes ([Event.readResponse response consumer]
        ++ readEvents otel response consumer (w.cells cell) ++ d) = writes d := by
      rw [writes_append, writes_append, c4]
      simp [writes, Event.isWrite]
    refine ⟨w1, v, [.readResponse response consumer]
        ++ readEvents otel response consumer (w.cells cell) ++ d, hrun, ?_, ?_, ?_, ?_, ?_, ?_, ?_⟩
    · simp [hev]
    · rw [hw, started_append, started_append, c1, hst]
      simp [started, Event.started?]
    · rw [hw, hsp]
    · rw [ended_append, ended_append, c2, hen]
      simp [ended, Event.ended?]
    · rw [recorded_append, recorded_append, c3, hrec]
      simp [recorded, Event.recorded?]
    · exact hvars
    · rw [hw]
      exact hcell

/-- With a context, `Submit` leaves the operation with the two hooks replaced, and does what
the wrapped transport does on that operation, followed by the closing calls. -/
theorem Submit_of_context (otel : Otel ρ) (t : openTelemetryTransport ρ α)
    (op : ClientOperation ρ α) (w : World) (ctx : Context) (h : op.Context = some ctx) :
    (t.Submit otel op w).1
        = { op with Params := tracedParams otel t op.toOperationInfo w.vars op.Params,
                    Reader := tracedReader otel w.vars op.Reader }
      ∧ (t.Submit otel op w).2
        = match t.transport.Submit (t.Submit otel op w).1 w.declare with
          | .ok w1 v =>
            .ok { w1 with events := w1.events ++ closeEvents (w1.span w.vars) v.2 }
              (v.1, wrapErr "submitting with opentelemetry: " v.2)
          | .panic w1 =>
            .panic { w1 with events := w1.events ++ closeEvents (w1.span w.vars) none } := by
  have h1 : (t.Submit otel op w).1
        = { op with Params := tracedParams otel t op.toOperationInfo w.vars op.Params,
                    Reader := tracedReader otel w.vars op.Reader } := by
    simp only [openTelemetryTransport.Submit, h]
  refine ⟨h1, ?_⟩
  rw [h1]
  simp only [openTelemetryTransport.Submit, h]
  rcases hr : t.transport.Submit
      { op with Params := tracedParams otel t op.toOperationInfo w.vars op.Params,
                Reader := tracedReader otel w.vars op.Reader } w.declare with ⟨w1, res, _ | err⟩ | w1
  all_goals
    cases hs : w1.cells w.vars <;>
      simp [deferred, hs, closeEvents, wrapErr, End, World.log, SetStatus, RecordError,
        World.span]

/-- Without a context, `Submit` leaves the operation as it is and does what the wrapped
transport does on it, the error wrapped with `submitting: `. -/
theorem Submit_of_no_context (otel : Otel ρ) (t : openTelemetryTransport ρ α)
    (op : ClientOperation ρ α) (w : World) (h : op.Context = none) :
    t.Submit otel op w
      = (op, match t.transport.Submit op w with
             | .ok w1 v => .ok w1 (v.1, wrapErr "submitting: " v.2)
             | .panic w1 => .panic w1) := by
  simp only [openTelemetryTransport.Submit, h]
  rcases hr : t.transport.Submit op w with ⟨w1, res, _ | err⟩ | w1 <;> simp [wrapErr]

/-- The run of a transport under hooks of the caller: it returns, and it starts and ends no
span. -/
theorem run_caller (f : ρ → Option Registry → ρ × Option Err)
    (rd : ClientResponse → Consumer → α × Option Err) (prog : Prog ρ α) (w : World) :
    ∃ w1 v d,
      prog.run (callerParams f) (callerReader rd) w = .ok w1 v
        ∧ w1.events = w.events ++ d
        ∧ started d = []
        ∧ ended d = [] := by
  induction prog generalizing w with
  | ret res err => exact ⟨w, (res, err), [], rfl, by simp, rfl, rfl⟩
  | writeToRequest req reg k ih =>
    simp only [Prog.run, callerParams, World.log]
    obtain ⟨w1, v, d, hrun, hev, hst, hen⟩ :=
      ih (f req reg).1 (f req reg).2
        { w with events := w.events ++ [.writeToRequest reg] ++ [.params reg] }
    refine ⟨w1, v, [.writeToRequest reg, .params reg] ++ d, hrun, ?_, ?_, ?_⟩
    · simp [hev]
    · rw [started_append, hst]; rfl
    · rw [ended_append, hen]; rfl
  | readResponse response consumer k ih =>
    simp only [Prog.run, callerReader, World.log]
    obtain ⟨w1, v, d, hrun, hev, hst, hen⟩ :=
      ih (rd response consumer).1 (rd response consumer).2
        { w with events := w.events ++ [.readResponse response consumer]
                    ++ [.reader response consumer] }
    refine ⟨w1, v, [.readResponse response consumer, .reader response consumer] ++ d, hrun,
      ?_, ?_, ?_⟩
    · simp [hev]
    · rw [started_append, hst]; rfl
    · rw [ended_append, hen]; rfl

theorem closeEvents_counts (span : Option Nat) (err : Option Err) :
    started (closeEvents span err) = []
      ∧ writes (closeEvents span err) = 0
      ∧ ended (closeEvents span err) = span.toList := by
  cases span <;> cases err <;>
    simp [closeEvents, started, writes, ended, Event.started?, Event.isWrite, Event.ended?]

/-- What `Submit` does for an operation with a context whose hooks are the caller's, on a
transport whose formatter and propagator are set: the wrapped transport returns, `Submit`
returns its result, and the log grows by the calls `d` of the transport run and the closing
calls on the last span started. -/
theorem Submit_caller (otel : Otel ρ) (t : openTelemetryTransport ρ α)
    (op : ClientOperation ρ α) (w : World) (ctx : Context)
    (f : ρ → Option Registry → ρ × Option Err)
    (rd : ClientResponse → Consumer → α × Option Err)
    (formatter : OperationInfo → String) (propagator : TextMapPropagator ρ)
    (hctx : op.Context = some ctx) (hparams : op.Params = callerParams f)
    (hreader : op.Reader = callerReader rd)
    (hf : t.config.SpanNameFormatter = some formatter)
    (hp : t.config.Propagator = some propagator) :
    ∃ w0 w1 res err d,
      t.transport.Submit
          { op with Params := tracedParams otel t op.toOperationInfo w.vars op.Params,
                    Reader := tracedReader otel w.vars op.Reader } w.declare
        = .ok w0 (res, err)
      ∧ (t.Submit otel op w).2 = .ok w1 (res, wrapErr "submitting with opentelemetry: " err)
      ∧ w1.events = w.events ++ d
          ++ closeEvents (if writes d = 0 then none else some (w.spans + writes d - 1)) err
      ∧ started d = List.range' w.spans (writes d)
      ∧ ended d = []
      ∧ recorded d = [] := by
  obtain ⟨h1, h2⟩ := Submit_of_context otel t op w ctx hctx
  obtain ⟨w0, v, d, hrun, hev, hst, -, hen, hrec, -, hcell⟩ :=
    run_traced otel t op.toOperationInfo w.vars f rd formatter propagator hf hp
      (t.transport op.toOperationInfo) w.declare
  have hinner : t.transport.Submit
      { op with Params := tracedParams otel t op.toOperationInfo w.vars op.Params,
                Reader := tracedReader otel w.vars op.Reader } w.declare = .ok w0 v := by
    simp only [ClientTransport.Submit, hparams, hreader]
    exact hrun
  have hcell' : w0.span w.vars = if writes d = 0 then none else some (w.spans + writes d - 1) := by
    rw [hcell]
    simp [World.declare, World.span]
  rw [h1, hinner] at h2
  refine ⟨w0, _, v.1, v.2, d, hinner, h2, ?_, hst, hen, hrec⟩
  simp only [hcell', hev]
  simp [World.declare]

/-- C2 (as amended): for an operation with a context whose hooks are the caller's, `Submit`
returns, and the calls `d` it adds to the log are such that, if the transport invoked the
request writer exactly once, exactly one span is started and exactly that span is ended,
once, whatever result and error the transport came back with; if the transport never
invoked the request writer, no span is started and none is ended. -/
theorem Submit_one_write_one_span (otel : Otel ρ) (t : openTelemetryTransport ρ α)
    (op : ClientOperation ρ α) (w : World) (ctx : Context)
    (f : ρ → Option Registry → ρ × Option Err)
    (rd : ClientResponse → Consumer → α × Option Err)
    (formatter : OperationInfo → String) (propagator : TextMapPropagator ρ)
    (hctx : op.Context = some ctx) (hparams : op.Params = callerParams f)
    (hreader : op.Reader = callerReader rd)
    (hf : t.config.SpanNameFormatter = some formatter)
    (hp : t.config.Propagator = some propagator) :
    ∃ w1 v d,
      (t.Submit otel op w).2 = .ok w1 v
        ∧ w1.events = w.events ++ d
        ∧ (writes d = 1 → started d = [w.spans] ∧ ended d = [w.spans])
        ∧ (writes d = 0 → started d = [] ∧ ended d = []) := by
  obtain ⟨w0, w1, res, err, d, -, hsub, hev, hst, hen, -⟩ :=
    Submit_caller otel t op w ctx f rd formatter propagator hctx hparams hreader hf hp
  obtain ⟨c1, c2, c3⟩ :=
    closeEvents_counts (if writes d = 0 then none else some (w.spans + writes d - 1)) err
  refine ⟨w1, _, d ++ closeEvents (if writes d = 0 then none else some (w.spans + writes d - 1)) err,
    hsub, by rw [hev, List.append_assoc], ?_, ?_⟩
  · intro h
    rw [writes_append, c2, Nat.add_zero] at h
    rw [started_append, ended_append, c1, c3, hst, hen, h]
    simp
  · intro h
    rw [writes_append, c2, Nat.add_zero] at h
    rw [started_append, ended_append, c1, c3, hst, hen, h]
    simp

/-- With a nil formatter or a nil propagator the installed request writer panics, whatever
the original writer is. -/
theorem tracedParams_panics (otel : Otel ρ) (t : openTelemetryTransport ρ α)
    (op : OperationInfo) (cell : Nat) (params : ClientRequestWriter ρ)
    (hnil : t.config.SpanNameFormatter = none ∨ t.config.Propagator = none)
    (req : ρ) (reg : Option Registry) (w : World) :
    ∃ w1, tracedParams otel t op cell params req reg w = .panic w1 := by
  cases hfm : t.config.SpanNameFormatter with
  | none => exact ⟨w, by simp [tracedParams, openTelemetryTransport.newOpenTelemetrySpan, hfm]⟩
  | some formatter =>
    have hpp : t.config.Propagator = none := by
      rcases hnil with h | h
      · rw [hfm] at h; cases h
      · exact h
    simp only [tracedParams, openTelemetryTransport.newOpenTelemetrySpan, hfm, hpp, Tracer.Start]
    exact ⟨_, rfl⟩

/-- The run of a transport under the hooks `Submit` installs over hooks of the caller, when
the formatter or the propagator is nil: it panics, or it returns without having invoked the
request writer. -/
theorem run_traced_nil (otel : Otel ρ) (t : openTelemetryTransport ρ α)
    (op : OperationInfo) (cell : Nat) (f : ρ → Option Registry → ρ × Option Err)
    (rd : ClientResponse → Consumer → α × Option Err)
    (hnil : t.config.SpanNameFormatter = none ∨ t.config.Propagator = none)
    (prog : Prog ρ α) (w : World) :
    (∃ w1, prog.run (tracedParams otel t op cell (callerParams f))
        (tracedReader otel cell (callerReader rd)) w = .panic w1)
      ∨ (∃ w1 v d,
          prog.run (tracedParams otel t op cell (callerParams f))
              (tracedReader otel cell (callerReader rd)) w = .ok w1 v
            ∧ w1.events = w.events ++ d
            ∧ writes d = 0) := by
  induction prog generalizing w with
  | ret res err => exact Or.inr ⟨w, (res, err), [], rfl, by simp, rfl⟩
  | writeToRequest req reg k _ =>
    obtain ⟨w1, h1⟩ := tracedParams_panics otel t op cell (callerParams f) hnil req reg
      (w.log (.writeToRequest reg))
    exact Or.inl ⟨w1, by simp only [Prog.run, h1]⟩
  | readResponse response consumer k ih =>
    simp only [Prog.run, tracedReader_caller, World.log, World.span]
    rcases ih (rd response consumer).1 (wrapErr "reading response: " (rd response consumer).2)
        { events := w.events ++ [.readResponse response consumer]
            ++ readEvents otel response consumer (w.cells cell),
          spans := w.spans, vars := w.vars, cells := w.cells } with ⟨w1, h1⟩ | ⟨w1, v, d, h1, hev, hw⟩
    · exact Or.inl ⟨w1, h1⟩
    · obtain ⟨-, -, -, c4⟩ := readEvents_quiet otel response consumer (w.cells cell)
      refine Or.inr ⟨w1, v, [.readResponse response consumer]
        ++ readEvents otel response consumer (w.cells cell) ++ d, h1, ?_, ?_⟩
      · simp only at hev
        simp [hev]
      · rw [writes_append, writes_append, c4, hw]
        simp [writes, Event.isWrite]

/-- C5: for an operation with a context whose hooks are the caller's, when `Submit` comes
back with an error and the transport invoked the request writer at least once (so that a
span was started), the error is the error of the wrapped transport, wrapped, and the last
three calls of `Submit` are, on the last span started (the only one when the request writer
was invoked once): record that error, set the status `Error` with the message of the error,
end the span.  Nothing before them ends a span, so both precede the end, and `Error` is the
last status set on the span. -/
theorem Submit_records_error_before_end (otel : Otel ρ) (t : openTelemetryTransport ρ α)
    (op : ClientOperation ρ α) (w : World) (ctx : Context)
    (f : ρ → Option Registry → ρ × Option Err)
    (rd : ClientResponse → Consumer → α × Option Err)
    (hctx : op.Context = some ctx) (hparams : op.Params = callerParams f)
    (hreader : op.Reader = callerReader rd)
    (res : α) (e : Err) (hret : (t.Submit otel op w).2.result = some (res, some e)) :
    ∃ d, (t.Submit otel op w).2.world.events = w.events ++ d
      ∧ (1 ≤ writes d →
          ∃ pre span err,
            e = Err.wrap "submitting with opentelemetry: " err
              ∧ started d ≠ []
              ∧ (started d).getLast? = some span
              ∧ (writes d = 1 → started d = [span])
              ∧ d = pre ++ [.RecordError span err, .SetStatus span .Error err.Error, .End span]
              ∧ ended pre = []
              ∧ recorded pre = []
              ∧ (statuses span d).getLast? = some (Code.Error, err.Error)) := by
  by_cases hnil : t.config.SpanNameFormatter = none ∨ t.config.Propagator = none
  · obtain ⟨h1, h2⟩ := Submit_of_context otel t op w ctx hctx
    have hinner : t.transport.Submit
        { op with Params := tracedParams otel t op.toOperationInfo w.vars op.Params,
                  Reader := tracedReader otel w.vars op.Reader } w.declare
        = (t.transport op.toOperationInfo).run
            (tracedParams otel t op.toOperationInfo w.vars (callerParams f))
            (tracedReader otel w.vars (callerReader rd)) w.declare := by
      simp only [ClientTransport.Submit, hparams, hreader]
    rw [h1, hinner] at h2
    rcases run_traced_nil otel t op.toOperationInfo w.vars f rd hnil
        (t.transport op.toOperationInfo) w.declare with ⟨w1, hp⟩ | ⟨w1, v, d, hr, hev, hw⟩
    · rw [hp] at h2
      rw [h2] at hret
      simp [Outcome.result] at hret
    · rw [hr] at h2
      obtain ⟨-, c2, -⟩ := closeEvents_counts (w1.span w.vars) v.2
      refine ⟨d ++ closeEvents (w1.span w.vars) v.2, ?_, ?_⟩
      · rw [h2]
        simp only [Outcome.world, hev, World.declare, List.append_assoc]
      · intro hge
        rw [writes_append, c2, hw] at hge
        omega
  · have hf : ∃ formatter, t.config.SpanNameFormatter = some formatter := by
      cases h : t.config.SpanNameFormatter with
      | none => exact absurd (Or.inl h) hnil
      | some formatter => exact ⟨formatter, rfl⟩
    have hp : ∃ propagator, t.config.Propagator = some propagator := by
      cases h : t.config.Propagator with
      | none => exact absurd (Or.inr h) hnil
      | some propagator => exact ⟨propagator, rfl⟩
    obtain ⟨formatter, hf⟩ := hf
    obtain ⟨propagator, hp⟩ := hp
    obtain ⟨w0, w1, res1, err1, d, -, hsub, hev, hst, hen, hrec⟩ :=
      Submit_caller otel t op w ctx f rd formatter propagator hctx hparams hreader hf hp
    obtain ⟨c1, c2, -⟩ :=
      closeEvents_counts (if writes d = 0 then none else some (w.spans + writes d - 1)) err1
    rw [hsub] at hret ⊢
    simp only [Outcome.result, Option.some.injEq, Prod.mk.injEq] at hret
    obtain ⟨-, herr⟩ := hret
    refine ⟨d ++ closeEvents (if writes d = 0 then none else some (w.spans + writes d - 1)) err1,
      by simp only [Outcome.world, hev, List.append_assoc], ?_⟩
    intro hge
    rw [writes_append, c2, Nat.add_zero] at hge
    have hk : writes d ≠ 0 := by omega
    cases err1 with
    | none => simp [wrapErr] at herr
    | some err =>
      simp only [wrapErr, Option.some.injEq] at herr
      obtain ⟨n, hn⟩ := Nat.exists_eq_succ_of_ne_zero hk
      refine ⟨d, w.spans + writes d - 1, err, herr.symm, ?_, ?_, ?_, ?_, hen, hrec, ?_⟩
      · rw [started_append, c1, List.append_nil, hst, hn]
        simp [List.range'_succ]
      · rw [started_append, c1, List.append_nil, hst]
        rw [hn, List.range'_concat]
        simp
      · intro h1
        rw [writes_append, c2, Nat.add_zero] at h1
        rw [started_append, c1, List.append_nil, hst, h1]
        simp
      · simp [closeEvents, hk]
      · simp only [closeEvents, hk, if_false]
        rw [statuses_append]
        simp [statuses, Event.status?]

/-- C7: for an operation with a context, when the wrapped transport, run on the operation
with the two hooks replaced, returns a result and an error, `Submit` returns that result,
and no error when the transport gave none, and otherwise the error of the transport wrapped
with `submitting with opentelemetry: `; and the transport does return when the hooks are the
caller's and the formatter and propagator of the configuration are set. -/
theorem Submit_returns_transport_result (otel : Otel ρ) (t : openTelemetryTransport ρ α)
    (op : ClientOperation ρ α) (w : World) (ctx : Context) (hctx : op.Context = some ctx) :
    (t.Submit otel op w).2.result
        = (t.transport.Submit
            { op with Params := tracedParams otel t op.toOperationInfo w.vars op.Params,
                      Reader := tracedReader otel w.vars op.Reader } w.declare).result.map
          (fun v => (v.1, wrapErr "submitting with opentelemetry: " v.2))
      ∧ wrapErr "submitting with opentelemetry: " none = none
      ∧ (∀ err : Err, wrapErr "submitting with opentelemetry: " (some err)
            = some (Err.wrap "submitting with opentelemetry: " err)
          ∧ (Err.wrap "submitting with opentelemetry: " err).Unwrap = some err
          ∧ (Err.wrap "submitting with opentelemetry: " err).Error
            = "submitting with opentelemetry: " ++ err.Error)
      ∧ (∀ f rd formatter propagator, op.Params = callerParams f → op.Reader = callerReader rd →
          t.config.SpanNameFormatter = some formatter → t.config.Propagator = some propagator →
          ∃ res err, (t.Submit otel op w).2.result
            = some (res, wrapErr "submitting with opentelemetry: " err)) := by
  obtain ⟨h1, h2⟩ := Submit_of_context otel t op w ctx hctx
  refine ⟨?_, rfl, fun err => ⟨rfl, rfl, rfl⟩, ?_⟩
  · rw [h2, h1]
    cases t.transport.Submit
      { op with Params := tracedParams otel t op.toOperationInfo w.vars op.Params,
                Reader := tracedReader otel w.vars op.Reader } w.declare <;> rfl
  · intro f rd formatter propagator hparams hreader hf hp
    obtain ⟨w0, w1, res, err, d, -, hsub, -⟩ :=
      Submit_caller otel t op w ctx f rd formatter propagator hctx hparams hreader hf hp
    exact ⟨res, err, by rw [hsub]; rfl⟩

/-- C4 (as amended): for an operation without a context, `Submit` leaves the operation as it
is and comes back exactly as the wrapped transport does on that operation, in the same
state, with the same result, and with no error when the transport gave none and otherwise
the error of the transport wrapped with `submitting: `; when the hooks are the caller's, the
call returns and starts no span. -/
theorem Submit_without_context (otel : Otel ρ) (t : openTelemetryTransport ρ α)
    (op : ClientOperation ρ α) (w : World) (hctx : op.Context = none) :
    t.Submit otel op w
        = (op, match t.transport.Submit op w with
               | .ok w1 v => .ok w1 (v.1, wrapErr "submitting: " v.2)
               | .panic w1 => .panic w1)
      ∧ (t.Submit otel op w).2.world = (t.transport.Submit op w).world
      ∧ (t.Submit otel op w).2.result
        = (t.transport.Submit op w).result.map (fun v => (v.1, wrapErr "submitting: " v.2))
      ∧ (∀ f rd, op.Params = callerParams f → op.Reader = callerReader rd →
          ∃ w1 v d, (t.Submit otel op w).2 = .ok w1 v ∧ w1.events = w.events ++ d
            ∧ started d = [] ∧ ended d = []) := by
  have h := Submit_of_no_context otel t op w hctx
  refine ⟨h, ?_, ?_, ?_⟩
  · rw [h]; cases t.transport.Submit op w <;> rfl
  · rw [h]; cases t.transport.Submit op w <;> rfl
  · intro f rd hparams hreader
    obtain ⟨w1, v, d, hrun, hev, hst, hen⟩ := run_caller f rd (t.transport op.toOperationInfo) w
    have hinner : t.transport.Submit op w = .ok w1 v := by
      simp only [ClientTransport.Submit, hparams, hreader]
      exact hrun
    exact ⟨w1, _, d, by rw [h, hinner], hev, hst, hen⟩

end OpenTelemetryProofs

/-! ## The traced transport on the examples -/

/-- C2, counterexample: on a transport that fails before it builds the request, `Submit`
for an operation with a context starts no span and ends none, so it is not the case that
exactly one span is started and exactly one is ended. -/
theorem Submit_failsEarly_no_span :
    ((newOpenTelemetryTransport otel0 failsEarly "example.org" []).Submit otel0
        (widgets (some ⟨1, none⟩)) World.init).2.result
      = some (0, some (Err.wrap "submitting with opentelemetry: "
          (Err.new "none of producers registered")))
    ∧ ¬ ((started ((newOpenTelemetryTransport otel0 failsEarly "example.org" []).Submit otel0
            (widgets (some ⟨1, none⟩)) World.init).2.world.events).length = 1
        ∧ (ended ((newOpenTelemetryTransport otel0 failsEarly "example.org" []).Submit otel0
            (widgets (some ⟨1, none⟩)) World.init).2.world.events).length = 1) := by
  decide

/-- An instance of C2 as amended: the round trip that ends in a 404. -/
theorem Submit_one_write_one_span_witness :
    (widgets (some ⟨1, none⟩)).Context = some ⟨1, none⟩
    ∧ (newOpenTelemetryTransport otel0 roundTrip "example.org" []).config.SpanNameFormatter
        = some (defaultTransportFormatter otel0)
    ∧ (newOpenTelemetryTransport otel0 roundTrip "example.org" []).config.Propagator
        = some otel0.GetTextMapPropagator
    ∧ ∃ w1 v d,
      ((newOpenTelemetryTransport otel0 roundTrip "example.org" []).Submit otel0
          (widgets (some ⟨1, none⟩)) World.init).2 = .ok w1 v
        ∧ w1.events = World.init.events ++ d
        ∧ (writes d = 1 → started d = [World.init.spans] ∧ ended d = [World.init.spans])
        ∧ (writes d = 0 → started d = [] ∧ ended d = []) :=
  ⟨rfl, rfl, rfl,
   Submit_one_write_one_span otel0 (newOpenTelemetryTransport otel0 roundTrip "example.org" [])
    (widgets (some ⟨1, none⟩)) World.init ⟨1, none⟩
    (fun r _ => ClientRequest.SetQueryParam r "id" ["7"])
    (fun response _ => (response.Code.toNat, none))
    (defaultTransportFormatter otel0) otel0.GetTextMapPropagator rfl rfl rfl rfl rfl⟩

/-- C3, the code at a failing input: on a transport that builds the request twice, `Submit`
starts the spans 0 and 1 and ends span 1 only; span 0 is never ended.  The same happens when
an operation is submitted a second time: the writer the first call left in the operation
starts a span of its own, span 2, that no call ends. -/
theorem Submit_retries_leaks_span :
    started ((newOpenTelemetryTransport otel0 retries "example.org" []).Submit otel0
        (widgets (some ⟨1, none⟩)) World.init).2.world.events = [0, 1]
    ∧ ended ((newOpenTelemetryTransport otel0 retries "example.org" []).Submit otel0
        (widgets (some ⟨1, none⟩)) World.init).2.world.events = [1]
    ∧ started ((newOpenTelemetryTransport otel0 roundTrip "example.org" []).Submit otel0
        ((newOpenTelemetryTransport otel0 roundTrip "example.org" []).Submit otel0
          (widgets (some ⟨1, none⟩)) World.init).1
        ((newOpenTelemetryTransport otel0 roundTrip "example.org" []).Submit otel0
          (widgets (some ⟨1, none⟩)) World.init).2.world).2.world.events = [0, 1, 2]
    ∧ ended ((newOpenTelemetryTransport otel0 roundTrip "example.org" []).Submit otel0
        ((newOpenTelemetryTransport otel0 roundTrip "example.org" []).Submit otel0
          (widgets (some ⟨1, none⟩)) World.init).1
        ((newOpenTelemetryTransport otel0 roundTrip "example.org" []).Submit otel0
          (widgets (some ⟨1, none⟩)) World.init).2.world).2.world.events = [0, 1] := by
  decide

/-- C4, counterexample: for an operation without a context on a transport that fails,
`Submit` does not return the error of the transport but that error wrapped with
`submitting: `. -/
theorem Submit_without_context_wraps :
    ((newOpenTelemetryTransport otel0 failsLate "example.org" []).Submit otel0
        (widgets none) World.init).2.result
      = some (0, some (Err.wrap "submitting: " (Err.new "connection refused")))
    ∧ (failsLate.Submit (widgets none) World.init).result
      = some (0, some (Err.new "connection refused"))
    ∧ ((newOpenTelemetryTransport otel0 failsLate "example.org" []).Submit otel0
        (widgets none) World.init).2.result
      ≠ (failsLate.Submit (widgets none) World.init).result := by
  decide

/-- An instance of C4 as amended. -/
theorem Submit_without_context_witness :
    (widgets none).Context = none
    ∧ ((newOpenTelemetryTransport otel0 failsLate "example.org" []).Submit otel0
        (widgets none) World.init).2.world
      = (failsLate.Submit (widgets none) World.init).world
    ∧ started ((newOpenTelemetryTransport otel0 failsLate "example.org" []).Submit otel0
        (widgets none) World.init).2.world.events = [] :=
  have h := Submit_without_context otel0 (newOpenTelemetryTransport otel0 failsLate "example.org" [])
    (widgets none) World.init rfl
  ⟨rfl, h.2.1, by decide⟩

/-- An instance of C5: the request is built, span 0 is started, and sending fails.  The
calls of `Submit` are written out: the last three record the error on span 0, set its
status to `Error` and end it. -/
theorem Submit_records_error_before_end_witness :
    (widgets (some ⟨1, none⟩)).Context = some ⟨1, none⟩
    ∧ ((newOpenTelemetryTransport otel0 failsLate "example.org" []).Submit otel0
        (widgets (some ⟨1, none⟩)) World.init).2.result
      = some (0, some (Err.wrap "submitting with opentelemetry: " (Err.new "connection refused")))
    ∧ ((newOpenTelemetryTransport otel0 failsLate "example.org" []).Submit otel0
        (widgets (some ⟨1, none⟩)) World.init).2.world.events
      = [ .writeToRequest (some ⟨1⟩),
          .Start 0 ⟨⟨0⟩, "go-openapi", "1.0.0"⟩ (some ⟨1, none⟩) "get_/widgets/{id}"
            [.WithSpanKind .SpanKindClient],
          .SetAttributes 0
            [ ("net.peer.name", .String "example.org"),
              ("http.route", .String "/widgets/{id}"),
              ("http.method", .String "GET"),
              ("span.kind", .String "client"),
              ("http.scheme", .String "https") ],
          .Inject 0 (some ⟨1, none⟩) 0,
          .params (some ⟨1⟩),
          .RecordError 0 (Err.new "connection refused"),
          .SetStatus 0 .Error "connection refused",
          .End 0 ]
    ∧ ∃ d, ((newOpenTelemetryTransport otel0 failsLate "example.org" []).Submit otel0
        (widgets (some ⟨1, none⟩)) World.init).2.world.events = World.init.events ++ d
      ∧ 1 ≤ writes d
      ∧ ∃ pre span err,
          Err.wrap "submitting with opentelemetry: " (Err.new "connection refused")
              = Err.wrap "submitting with opentelemetry: " err
            ∧ started d ≠ []
            ∧ (started d).getLast? = some span
            ∧ (writes d = 1 → started d = [span])
            ∧ d = pre ++ [.RecordError span err, .SetStatus span .Error err.Error, .End span]
            ∧ ended pre = []
            ∧ recorded pre = []
            ∧ (statuses span d).getLast? = some (Code.Error, err.Error) := by
  refine ⟨rfl, by decide, by decide, ?_⟩
  obtain ⟨d, hd, h⟩ := Submit_records_error_before_end otel0
    (newOpenTelemetryTransport otel0 failsLate "example.org" [])
    (widgets (some ⟨1, none⟩)) World.init ⟨1, none⟩
    (fun r _ => ClientRequest.SetQueryParam r "id" ["7"])
    (fun response _ => (response.Code.toNat, none)) rfl rfl rfl
    0 (Err.wrap "submitting with opentelemetry: " (Err.new "connection refused")) (by decide)
  have hw : 1 ≤ writes d := by
    have hd2 : d = ((newOpenTelemetryTransport otel0 failsLate "example.org" []).Submit otel0
        (widgets (some ⟨1, none⟩)) World.init).2.world.events := by
      rw [hd]; rfl
    rw [hd2]
    decide
  exact ⟨d, hd, hw, h hw⟩

/-- C6, the code at a failing input: the transport is constructed with the option
`WithTracerProvider` for provider 7 while the global provider is provider 0, and the
context of the operation carries no span.  The configuration holds a tracer of provider 7,
but the field `tracer` of the transport, the one `newOpenTelemetrySpan` reads, is nil
whatever the options are, and the span is started by a tracer of the global provider 0;
when the context carries a valid span of provider 3, by a tracer of provider 3. -/
theorem Submit_ignores_WithTracerProvider :
    (∀ (opts : List (OpenTelemetryOpt MemRequest)),
      (newOpenTelemetryTransport otel0 roundTrip "example.org" opts).tracer = none)
    ∧ (newOpenTelemetryTransport otel0 roundTrip "example.org"
        [.WithTracerProvider (some ⟨7⟩)]).config.Tracer = some (newTracer ⟨7⟩)
    ∧ tracers ((newOpenTelemetryTransport otel0 roundTrip "example.org"
        [.WithTracerProvider (some ⟨7⟩)]).Submit otel0
        (widgets (some ⟨1, none⟩)) World.init).2.world.events = [newTracer ⟨0⟩]
    ∧ tracers ((newOpenTelemetryTransport otel0 roundTrip "example.org"
        [.WithTracerProvider (some ⟨7⟩)]).Submit otel0
        (widgets (some ⟨1, some ⟨true, ⟨3⟩⟩⟩)) World.init).2.world.events = [newTracer ⟨3⟩] := by
  refine ⟨fun _ => rfl, by decide, by decide, by decide⟩

/-- An instance of C7: the round trip that ends in a 404 whose reader gives back the code. -/
theorem Submit_returns_transport_result_witness :
    (widgets (some ⟨1, none⟩)).Context = some ⟨1, none⟩
    ∧ ((newOpenTelemetryTransport otel0 roundTrip "example.org" []).Submit otel0
        (widgets (some ⟨1, none⟩)) World.init).2.result = some (404, none) :=
  ⟨rfl, (Submit_returns_transport_result otel0
    (newOpenTelemetryTransport otel0 roundTrip "example.org" [])
    (widgets (some ⟨1, none⟩)) World.init ⟨1, none⟩ rfl).1.trans (by decide)⟩

/-! ## The configuration -/

section
variable {ρ α : Type}

theorem foldl_apply_TracerProvider (opts : List (OpenTelemetryOpt ρ)) (c : config ρ) :
    (opts.foldl (fun c opt => opt.apply c) c).TracerProvider
      = (opts.filterMap OpenTelemetryOpt.provider?).getLast?.or c.TracerProvider := by
  induction opts generalizing c with
  | nil => simp
  | cons o os ih =>
    rw [List.foldl_cons, ih]
    cases o with
    | WithTracerProvider provider =>
      cases provider with
      | none => simp [OpenTelemetryOpt.apply, OpenTelemetryOpt.provider?]
      | some p =>
        simp only [OpenTelemetryOpt.apply, List.filterMap_cons, OpenTelemetryOpt.provider?,
          List.getLast?_cons]
        cases (List.filterMap OpenTelemetryOpt.provider? os).getLast? <;> simp
    | WithPropagators ps => cases ps <;> simp [OpenTelemetryOpt.apply, OpenTelemetryOpt.provider?]
    | WithSpanOptions o => simp [OpenTelemetryOpt.apply, OpenTelemetryOpt.provider?]
    | WithSpanNameFormatter f => simp [OpenTelemetryOpt.apply, OpenTelemetryOpt.provider?]

theorem foldl_apply_Propagator (opts : List (OpenTelemetryOpt ρ)) (c : config ρ) :
    (opts.foldl (fun c opt => opt.apply c) c).Propagator
      = (opts.filterMap OpenTelemetryOpt.propagator?).getLast?.or c.Propagator := by
  induction opts generalizing c with
  | nil => simp
  | cons o os ih =>
    rw [List.foldl_cons, ih]
    cases o with
    | WithPropagators ps =>
      cases ps with
      | none => simp [OpenTelemetryOpt.apply, OpenTelemetryOpt.propagator?]
      | some p =>
        simp only [OpenTelemetryOpt.apply, List.filterMap_cons, OpenTelemetryOpt.propagator?,
          List.getLast?_cons]
        cases (List.filterMap OpenTelemetryOpt.propagator? os).getLast? <;> simp
    | WithTracerProvider p => cases p <;> simp [OpenTelemetryOpt.apply, OpenTelemetryOpt.propagator?]
    | WithSpanOptions o => simp [OpenTelemetryOpt.apply, OpenTelemetryOpt.propagator?]
    | WithSpanNameFormatter f => simp [OpenTelemetryOpt.apply, OpenTelemetryOpt.propagator?]

theorem foldl_apply_SpanNameFormatter (opts : List (OpenTelemetryOpt ρ)) (c : config ρ) :
    (opts.foldl (fun c opt => opt.apply c) c).SpanNameFormatter
      = (opts.filterMap OpenTelemetryOpt.formatter?).getLast?.getD c.SpanNameFormatter := by
  induction opts generalizing c with
  | nil => simp
  | cons o os ih =>
    rw [List.foldl_cons, ih]
    cases o with
    | WithSpanNameFormatter f =>
      simp only [OpenTelemetryOpt.apply, List.filterMap_cons, OpenTelemetryOpt.formatter?,
        List.getLast?_cons]
      cases (List.filterMap OpenTelemetryOpt.formatter? os).getLast? <;> simp
    | WithTracerProvider p => cases p <;> simp [OpenTelemetryOpt.apply, OpenTelemetryOpt.formatter?]
    | WithPropagators ps => cases ps <;> simp [OpenTelemetryOpt.apply, OpenTelemetryOpt.formatter?]
    | WithSpanOptions o => simp [OpenTelemetryOpt.apply, OpenTelemetryOpt.formatter?]

theorem foldl_apply_Tracer (opts : List (OpenTelemetryOpt ρ)) (c : config ρ) :
    (opts.foldl (fun c opt => opt.apply c) c).Tracer = c.Tracer := by
  induction opts generalizing c with
  | nil => rfl
  | cons o os ih =>
    rw [List.foldl_cons, ih]
    cases o with
    | WithTracerProvider p => cases p <;> rfl
    | WithPropagators ps => cases ps <;> rfl
    | WithSpanOptions o => rfl
    | WithSpanNameFormatter f => rfl

/-- The configuration `newConfig` builds has the fields the options leave, and a tracer of
the tracer provider when there is one. -/
theorem newConfig_fields (otel : Otel ρ) (opts : List (OpenTelemetryOpt ρ)) :
    (newConfig otel opts).TracerProvider
        = (opts.filterMap OpenTelemetryOpt.provider?).getLast?
      ∧ (newConfig otel opts).Propagator
        = (opts.filterMap OpenTelemetryOpt.propagator?).getLast?.or (some otel.GetTextMapPropagator)
      ∧ (newConfig otel opts).SpanNameFormatter
        = (opts.filterMap OpenTelemetryOpt.formatter?).getLast?.getD none
      ∧ (newConfig otel opts).Tracer
        = (opts.filterMap OpenTelemetryOpt.provider?).getLast?.map newTracer := by
  have h1 := foldl_apply_TracerProvider opts
    { Tracer := none, Propagator := some otel.GetTextMapPropagator, SpanStartOptions := [],
      SpanNameFormatter := none, TracerProvider := none }
  have h2 := foldl_apply_Propagator opts
    { Tracer := none, Propagator := some otel.GetTextMapPropagator, SpanStartOptions := [],
      SpanNameFormatter := none, TracerProvider := none }
  have h3 := foldl_apply_SpanNameFormatter opts
    { Tracer := none, Propagator := some otel.GetTextMapPropagator, SpanStartOptions := [],
      SpanNameFormatter := none, TracerProvider := none }
  have h4 := foldl_apply_Tracer opts
    { Tracer := none, Propagator := some otel.GetTextMapPropagator, SpanStartOptions := [],
      SpanNameFormatter := none, TracerProvider := none }
  simp only [Option.or_none] at h1
  unfold newConfig
  simp only []
  rw [← h1]
  cases hc : (List.foldl (fun c opt => opt.apply c)
      ({ Tracer := none, Propagator := some otel.GetTextMapPropagator, SpanStartOptions := [],
         SpanNameFormatter := none, TracerProvider := none } : config ρ) opts).TracerProvider with
  | none =>
    dsimp only
    exact ⟨hc, h2, h3, h4⟩
  | some tp =>
    dsimp only
    exact ⟨rfl, h2, h3, rfl⟩

/-- C14: whatever options `newOpenTelemetryTransport` is given, the tracer provider, the
propagator and the span-name formatter of the configuration it builds are each the value
supplied by the last option of the list that sets the field (`WithTracerProvider` and
`WithPropagators` set theirs when given a non-nil value, `WithSpanNameFormatter` always),
and the global tracer provider, the global propagator and the default formatter when no
option of the list sets it. -/
theorem newOpenTelemetryTransport_last_option_wins (otel : Otel ρ) (transport : ClientTransport ρ α)
    (host : String) (opts : List (OpenTelemetryOpt ρ)) :
    (newOpenTelemetryTransport otel transport host opts).config.TracerProvider
        = some (lastSet OpenTelemetryOpt.provider? otel.GetTracerProvider opts)
      ∧ (newOpenTelemetryTransport otel transport host opts).config.Propagator
        = some (lastSet OpenTelemetryOpt.propagator? otel.GetTextMapPropagator opts)
      ∧ (newOpenTelemetryTransport otel transport host opts).config.SpanNameFormatter
        = lastSet OpenTelemetryOpt.formatter? (some (defaultTransportFormatter otel)) opts := by
  obtain ⟨h1, h2, h3, -⟩ := newConfig_fields otel
    ([ .WithSpanOptions [.WithSpanKind .SpanKindClient],
       .WithSpanNameFormatter (some (defaultTransportFormatter otel)),
       .WithPropagators (some otel.GetTextMapPropagator),
       .WithTracerProvider (some otel.GetTracerProvider) ] ++ opts)
  refine ⟨?_, ?_, ?_⟩
  · show (newConfig otel _).TracerProvider = _
    rw [h1]
    simp only [List.filterMap_append, List.getLast?_append, lastSet]
    cases (List.filterMap OpenTelemetryOpt.provider? opts).getLast? <;>
      simp [OpenTelemetryOpt.provider?]
  · show (newConfig otel _).Propagator = _
    rw [h2]
    simp only [List.filterMap_append, List.getLast?_append, lastSet]
    cases (List.filterMap OpenTelemetryOpt.propagator? opts).getLast? <;>
      simp [OpenTelemetryOpt.propagator?]
  · show (newConfig otel _).SpanNameFormatter = _
    rw [h3]
    simp only [List.filterMap_append, List.getLast?_append, lastSet]
    cases (List.filterMap OpenTelemetryOpt.formatter? opts).getLast? <;>
      simp [OpenTelemetryOpt.formatter?]

/-- C18, the code on every option list: the configuration `newOpenTelemetryTransport`
builds always holds a tracer, of the last tracer provider an option supplies and of the
global tracer provider when the list is empty or has no `WithTracerProvider`, because the
default options supply the global tracer provider; `newConfig` alone, given no option,
creates none.  The field `tracer` of the transport is nil all the same. -/
theorem newOpenTelemetryTransport_always_creates_tracer (otel : Otel ρ)
    (transport : ClientTransport ρ α) (host : String) (opts : List (OpenTelemetryOpt ρ)) :
    (newOpenTelemetryTransport otel transport host opts).config.Tracer
        = some (newTracer (lastSet OpenTelemetryOpt.provider? otel.GetTracerProvider opts))
      ∧ (newOpenTelemetryTransport otel transport host opts).tracer = none
      ∧ (newOpenTelemetryTransport otel0 roundTrip "example.org" []).config.Tracer
        = some (newTracer ⟨0⟩)
      ∧ (newOpenTelemetryTransport otel0 roundTrip "example.org"
          [.WithSpanOptions [.other 1]]).config.Tracer = some (newTracer ⟨0⟩)
      ∧ (newConfig otel0 []).Tracer = none := by
  refine ⟨?_, rfl, by decide, by decide, by decide⟩
  obtain ⟨-, -, -, h4⟩ := newConfig_fields otel
    ([ .WithSpanOptions [.WithSpanKind .SpanKindClient],
       .WithSpanNameFormatter (some (defaultTransportFormatter otel)),
       .WithPropagators (some otel.GetTextMapPropagator),
       .WithTracerProvider (some otel.GetTracerProvider) ] ++ opts)
  show (newConfig otel _).Tracer = _
  rw [h4]
  simp only [List.filterMap_append, List.getLast?_append, lastSet]
  cases (List.filterMap OpenTelemetryOpt.provider? opts).getLast? <;>
    simp [OpenTelemetryOpt.provider?]

end

/-! ## The installed hooks -/

section
variable {ρ α : Type}

/-- The installed request writer over any writer: it starts the span, sets the attributes,
injects, stores the span in the `span` variable, and then runs the original writer once on
the request as the injection left it and the registry it was given, wrapping its error. -/
theorem tracedParams_eq (otel : Otel ρ) (t : openTelemetryTransport ρ α)
    (op : OperationInfo) (cell : Nat) (params : ClientRequestWriter ρ)
    (formatter : OperationInfo → String) (propagator : TextMapPropagator ρ)
    (hf : t.config.SpanNameFormatter = some formatter)
    (hp : t.config.Propagator = some propagator)
    (req : ρ) (reg : Option Registry) (w : World) :
    tracedParams otel t op cell params req reg w
      = (params (propagator.Inject op.Context w.spans req) reg
          { events := w.events ++
              [ .Start w.spans (resolveTracer otel t op.Context) op.Context (formatter op)
                  t.config.SpanStartOptions,
                .SetAttributes w.spans
                  [ ("net.peer.name", .String t.host),
                    ("http.route", .String op.PathPattern),
                    ("http.method", .String op.Method),
                    ("span.kind", .String "client"),
                    ("http.scheme", .String (op.Schemes.headD "")) ],
                .Inject propagator.id op.Context w.spans ],
            spans := w.spans + 1, vars := w.vars,
            cells := fun i => if i = cell then some w.spans else w.cells i }).wrap
          "writing to request: " := by
  have key : t.newOpenTelemetrySpan otel op req w
      = .ok { events := w.events ++
                [ .Start w.spans (resolveTracer otel t op.Context) op.Context (formatter op)
                    t.config.SpanStartOptions,
                  .SetAttributes w.spans
                    [ ("net.peer.name", .String t.host),
                      ("http.route", .String op.PathPattern),
                      ("http.method", .String op.Method),
                      ("span.kind", .String "client"),
                      ("http.scheme", .String (op.Schemes.headD "")) ],
                  .Inject propagator.id op.Context w.spans ],
              spans := w.spans + 1, vars := w.vars, cells := w.cells }
          (propagator.Inject op.Context w.spans req, w.spans) := by
    simp [openTelemetryTransport.newOpenTelemetrySpan, hf, hp, Tracer.Start, SetAttributes,
      World.log, SpanKind.String]
  simp only [tracedParams, key, World.setSpan]
  generalize params (propagator.Inject op.Context w.spans req) reg _ = out
  rcases out with ⟨w2, r2, _ | err⟩ | w2 <;> rfl

/-- The installed response reader over any reader: when the `span` variable holds a span it
sets the status code attribute and the status on it, and then it runs the original reader
once on the response and the consumer it was given, wrapping its error. -/
theorem tracedReader_eq (otel : Otel ρ) (cell : Nat) (reader : ClientResponseReader α)
    (response : ClientResponse) (consumer : Consumer) (w : World) :
    tracedReader otel cell reader response consumer w
      = (reader response consumer
          { w with events := w.events ++
              match w.span cell with
              | some span =>
                [ .SetAttributes span [("http.status_code", .Int response.Code)],
                  .SetStatus span
                    (otel.SpanStatusFromHTTPStatusCodeAndSpanKind response.Code .SpanKindClient).1
                    (otel.SpanStatusFromHTTPStatusCodeAndSpanKind response.Code .SpanKindClient).2 ]
              | none => [] }).wrap "reading response: " := by
  simp only [tracedReader]
  cases hs : w.span cell with
  | none =>
    have hw : ({ w with events := w.events ++ [] } : World) = w := by simp
    simp only [hw]
    generalize reader response consumer w = out
    rcases out with ⟨w2, r2, _ | err⟩ | w2 <;> rfl
  | some span =>
    have hw : SetStatus span
          (otel.SpanStatusFromHTTPStatusCodeAndSpanKind response.Code .SpanKindClient)
          (SetAttributes span [("http.status_code", .Int response.Code)] w)
        = { w with events := w.events ++
              [ .SetAttributes span [("http.status_code", .Int response.Code)],
                .SetStatus span
                  (otel.SpanStatusFromHTTPStatusCodeAndSpanKind response.Code .SpanKindClient).1
                  (otel.SpanStatusFromHTTPStatusCodeAndSpanKind response.Code .SpanKindClient).2 ] } := by
      simp [SetStatus, SetAttributes, World.log]
    simp only [hw]
    generalize reader response consumer _ = out
    rcases out with ⟨w2, r2, _ | err⟩ | w2 <;> rfl

end

section
variable {ρ α : Type}

theorem startCalls_append (a b : List Event) :
    startCalls (a ++ b) = startCalls a ++ startCalls b := by
  simp [startCalls]

theorem hookCalls_append (a b : List Event) :
    hookCalls (a ++ b) = hookCalls a ++ hookCalls b := by
  simp [hookCalls]

theorem closeEvents_startCalls (span : Option Nat) (err : Option Err) :
    startCalls (closeEvents span err) = [] := by
  cases span <;> cases err <;> simp [closeEvents, startCalls, Event.start?]

/-- The run of a transport under the hooks `Submit` installs over hooks of the caller: every
span is started with the tracer chosen for the context of the operation, that context as
parent, the name the formatter gives the operation and the span-start options of the
configuration. -/
theorem run_traced_starts (otel : Otel ρ) (t : openTelemetryTransport ρ α)
    (op : OperationInfo) (cell : Nat) (f : ρ → Option Registry → ρ × Option Err)
    (rd : ClientResponse → Consumer → α × Option Err)
    (formatter : OperationInfo → String) (propagator : TextMapPropagator ρ)
    (hf : t.config.SpanNameFormatter = some formatter)
    (hp : t.config.Propagator = some propagator)
    (prog : Prog ρ α) (w : World) :
    ∃ w1 v d,
      prog.run (tracedParams otel t op cell (callerParams f))
          (tracedReader otel cell (callerReader rd)) w = .ok w1 v
        ∧ w1.events = w.events ++ d
        ∧ w1.spans = w.spans + writes d
        ∧ startCalls d = (List.range' w.spans (writes d)).map (fun s =>
            (s, resolveTracer otel t op.Context, op.Context, formatter op,
              t.config.SpanStartOptions)) := by
  induction prog generalizing w with
  | ret res err =>
    exact ⟨w, (res, err), [], rfl, by simp, by simp [writes], by simp [startCalls, writes]⟩
  | writeToRequest req reg k ih =>
    simp only [Prog.run, tracedParams_caller otel t op cell f formatter propagator hf hp,
      World.log]
    obtain ⟨w1, v, d, hrun, hev, hsp, hst⟩ :=
      ih (f (propagator.Inject op.Context w.spans req) reg).1
        (wrapErr "writing to request: " (f (propagator.Inject op.Context w.spans req) reg).2)
        { events := w.events ++ [.writeToRequest reg]
            ++ writeEvents otel t op formatter propagator reg w.spans,
          spans := w.spans + 1, vars := w.vars,
          cells := fun i => if i = cell then some w.spans else w.cells i }
    simp only at hev hsp hst
    obtain ⟨-, -, -, c4⟩ := writeEvents_counts otel t op formatter propagator reg w.spans
    have hw : writes ([Event.writeToRequest reg]
        ++ writeEvents otel t op formatter propagator reg w.spans ++ d) = writes d + 1 := by
      rw [writes_append, writes_append, c4]
      simp [writes, Event.isWrite]
      omega
    refine ⟨w1, v, [.writeToRequest reg]
        ++ writeEvents otel t op formatter propagator reg w.spans ++ d, hrun, ?_, ?_, ?_⟩
    · simp [hev]
    · rw [hw, hsp]; omega
    · rw [hw, startCalls_append, startCalls_append, hst]
      simp [startCalls, Event.start?, writeEvents, List.range'_succ]
  | readResponse response consumer k ih =>
    simp only [Prog.run, tracedReader_caller, World.log, World.span]
    obtain ⟨w1, v, d, hrun, hev, hsp, hst⟩ :=
      ih (rd response consumer).1 (wrapErr "reading response: " (rd response consumer).2)
        { events := w.events ++ [.readResponse response consumer]
            ++ readEvents otel response consumer (w.cells cell),
          spans := w.spans, vars := w.vars, cells := w.cells }
    simp only at hev hsp hst
    obtain ⟨-, -, -, c4⟩ := readEvents_quiet otel response consumer (w.cells cell)
    have hw : writes ([Event.readResponse response consumer]
        ++ readEvents otel response consumer (w.cells cell) ++ d) = writes d := by
      rw [writes_append, writes_append, c4]
      simp [writes, Event.isWrite]
    have hr : startCalls (readEvents otel response consumer (w.cells cell)) = [] := by
      cases w.cells cell <;> simp [readEvents, startCalls, Event.start?]
    refine ⟨w1, v, [.readResponse response consumer]
        ++ readEvents otel response consumer (w.cells cell) ++ d, hrun, ?_, ?_, ?_⟩
    · simp [hev]
    · rw [hw, hsp]
    · rw [hw, startCalls_append, startCalls_append, hst, hr]
      simp [startCalls, Event.start?]

/-- What `Submit` starts for an operation with a context whose hooks are the caller's: it
returns, and every span it starts is started with the tracer chosen for the context of the
operation, that context as parent, the name the formatter gives the operation and the
span-start options of the configuration. -/
theorem Submit_caller_starts (otel : Otel ρ) (t : openTelemetryTransport ρ α)
    (op : ClientOperation ρ α) (w : World) (ctx : Context)
    (f : ρ → Option Registry → ρ × Option Err)
    (rd : ClientResponse → Consumer → α × Option Err)
    (formatter : OperationInfo → String) (propagator : TextMapPropagator ρ)
    (hctx : op.Context = some ctx) (hparams : op.Params = callerParams f)
    (hreader : op.Reader = callerReader rd)
    (hf : t.config.SpanNameFormatter = some formatter)
    (hp : t.config.Propagator = some propagator) :
    ∃ w1 v d,
      (t.Submit otel op w).2 = .ok w1 v
        ∧ w1.events = w.events ++ d
        ∧ startCalls d = (List.range' w.spans (writes d)).map (fun s =>
            (s, resolveTracer otel t op.Context, op.Context, formatter op.toOperationInfo,
              t.config.SpanStartOptions)) := by
  obtain ⟨h1, h2⟩ := Submit_of_context otel t op w ctx hctx
  obtain ⟨w0, v, d, hrun, hev, -, hst⟩ :=
    run_traced_starts otel t op.toOperationInfo w.vars f rd formatter propagator hf hp
      (t.transport op.toOperationInfo) w.declare
  have hinner : t.transport.Submit
      { op with Params := tracedParams otel t op.toOperationInfo w.vars op.Params,
                Reader := tracedReader otel w.vars op.Reader } w.declare = .ok w0 v := by
    simp only [ClientTransport.Submit, hparams, hreader]
    exact hrun
  rw [h1, hinner] at h2
  obtain ⟨-, c2, -⟩ := closeEvents_counts (w0.span w.vars) v.2
  refine ⟨_, _, d ++ closeEvents (w0.span w.vars) v.2, h2, ?_, ?_⟩
  · simp only [hev, World.declare, List.append_assoc]
  · rw [startCalls_append, closeEvents_startCalls, List.append_nil, writes_append, c2,
      Nat.add_zero]
    exact hst

end

section
variable {ρ α : Type}

/-- C11: when the installed response reader is invoked with a response while the `span`
variable holds a span, it sets on that span the attribute `http.status_code` to the code of
the response and then the status the convention gives for that code and the client span
kind, and only then runs the original reader (on the state these two calls leave), whose
result it returns with the error wrapped; when the variable holds no span it records
nothing and runs the original reader all the same. -/
theorem tracedReader_tags_status (otel : Otel ρ) (cell : Nat) (reader : ClientResponseReader α)
    (rd : ClientResponse → Consumer → α × Option Err)
    (response : ClientResponse) (consumer : Consumer) (w : World) :
    (∀ span, w.span cell = some span →
      tracedReader otel cell reader response consumer w
          = (reader response consumer
              { w with events := w.events ++
                [ .SetAttributes span [("http.status_code", .Int response.Code)],
                  .SetStatus span
                    (otel.SpanStatusFromHTTPStatusCodeAndSpanKind response.Code .SpanKindClient).1
                    (otel.SpanStatusFromHTTPStatusCodeAndSpanKind response.Code .SpanKindClient).2 ] }).wrap
              "reading response: "
        ∧ tracedReader otel cell (callerReader rd) response consumer w
          = .ok { w with events := w.events ++
                [ .SetAttributes span [("http.status_code", .Int response.Code)],
                  .SetStatus span
                    (otel.SpanStatusFromHTTPStatusCodeAndSpanKind response.Code .SpanKindClient).1
                    (otel.SpanStatusFromHTTPStatusCodeAndSpanKind response.Code .SpanKindClient).2,
                  .reader response consumer ] }
              ((rd response consumer).1, wrapErr "reading response: " (rd response consumer).2))
    ∧ (w.span cell = none →
      tracedReader otel cell reader response consumer w
          = (reader response consumer w).wrap "reading response: "
        ∧ tracedReader otel cell (callerReader rd) response consumer w
          = .ok { w with events := w.events ++ [.reader response consumer] }
              ((rd response consumer).1, wrapErr "reading response: " (rd response consumer).2)) := by
  refine ⟨fun span hs => ⟨?_, ?_⟩, fun hs => ⟨?_, ?_⟩⟩
  · rw [tracedReader_eq, hs]
  · rw [tracedReader_caller, hs]
    simp [readEvents]
  · rw [tracedReader_eq, hs]
    simp
  · rw [tracedReader_caller, hs]
    simp [readEvents]

/-- C12 (as amended): on a transport whose formatter and propagator are not nil, one
invocation of the installed request writer over a writer of the caller runs that writer
exactly once, on the request it was given (as the injection left it) and the registry it
was given; whatever the configuration, one invocation of the installed response reader over
a reader of the caller runs that reader exactly once, on the response and the consumer it
was given, and returns its result.  Each returns no error when the original returned none,
and otherwise the original error wrapped with `writing to request: ` or
`reading response: `. -/
theorem traced_hooks_delegate_once (otel : Otel ρ) (t : openTelemetryTransport ρ α)
    (op : OperationInfo) (cell : Nat) (f : ρ → Option Registry → ρ × Option Err)
    (rd : ClientResponse → Consumer → α × Option Err)
    (req : ρ) (reg : Option Registry) (response : ClientResponse) (consumer : Consumer)
    (w : World) :
    (∀ formatter propagator, t.config.SpanNameFormatter = some formatter →
      t.config.Propagator = some propagator →
      ∃ w1 d,
        tracedParams otel t op cell (callerParams f) req reg w
            = .ok w1 ((f (propagator.Inject op.Context w.spans req) reg).1,
                wrapErr "writing to request: "
                  (f (propagator.Inject op.Context w.spans req) reg).2)
          ∧ w1.events = w.events ++ d
          ∧ hookCalls d = [.params reg])
    ∧ (∃ w1 d,
      tracedReader otel cell (callerReader rd) response consumer w
          = .ok w1 ((rd response consumer).1,
              wrapErr "reading response: " (rd response consumer).2)
        ∧ w1.events = w.events ++ d
        ∧ hookCalls d = [.reader response consumer])
    ∧ (∀ pre err, (wrapErr pre err = none ↔ err = none))
    ∧ (∀ pre err, wrapErr pre (some err) = some (Err.wrap pre err)
        ∧ (Err.wrap pre err).Unwrap = some err
        ∧ (Err.wrap pre err).Error = pre ++ err.Error) := by
  refine ⟨fun formatter propagator hf hp =>
      ⟨_, writeEvents otel t op formatter propagator reg w.spans,
        tracedParams_caller otel t op cell f formatter propagator hf hp req reg w, rfl, ?_⟩,
    ⟨_, readEvents otel response consumer (w.span cell),
      tracedReader_caller otel cell rd response consumer w, rfl, ?_⟩,
    fun pre err => by cases err <;> simp [wrapErr], fun pre err => ⟨rfl, rfl, rfl⟩⟩
  · simp [hookCalls, writeEvents, Event.isHook]
  · cases w.span cell <;> simp [hookCalls, readEvents, Event.isHook]

/-- C16 (as amended): on a transport whose formatter and propagator are not nil, one
invocation of the installed request writer starts a span with the name the configured
formatter gives the operation, the configured span-start options and the context of the
operation as parent; then sets on it `net.peer.name` to the host, `http.route` to the path
pattern, `http.method` to the method, `span.kind` to `client` and `http.scheme` to the
first scheme of the operation or to the empty string; then injects the context that carries
the new span with the configured propagator; and runs the original writer on the state all
this leaves.  Over a writer of the caller these are the four calls it adds. -/
theorem tracedParams_steps (otel : Otel ρ) (t : openTelemetryTransport ρ α)
    (op : OperationInfo) (cell : Nat) (params : ClientRequestWriter ρ)
    (f : ρ → Option Registry → ρ × Option Err)
    (formatter : OperationInfo → String) (propagator : TextMapPropagator ρ)
    (hf : t.config.SpanNameFormatter = some formatter)
    (hp : t.config.Propagator = some propagator)
    (req : ρ) (reg : Option Registry) (w : World) :
    tracedParams otel t op cell params req reg w
        = (params (propagator.Inject op.Context w.spans req) reg
            { events := w.events ++
                [ .Start w.spans (resolveTracer otel t op.Context) op.Context (formatter op)
                    t.config.SpanStartOptions,
                  .SetAttributes w.spans
                    [ ("net.peer.name", .String t.host),
                      ("http.route", .String op.PathPattern),
                      ("http.method", .String op.Method),
                      ("span.kind", .String "client"),
                      ("http.scheme", .String (op.Schemes.headD "")) ],
                  .Inject propagator.id op.Context w.spans ],
              spans := w.spans + 1, vars := w.vars,
              cells := fun i => if i = cell then some w.spans else w.cells i }).wrap
            "writing to request: "
      ∧ tracedParams otel t op cell (callerParams f) req reg w
        = .ok { events := w.events ++
                [ .Start w.spans (resolveTracer otel t op.Context) op.Context (formatter op)
                    t.config.SpanStartOptions,
                  .SetAttributes w.spans
                    [ ("net.peer.name", .String t.host),
                      ("http.route", .String op.PathPattern),
                      ("http.method", .String op.Method),
                      ("span.kind", .String "client"),
                      ("http.scheme", .String (op.Schemes.headD "")) ],
                  .Inject propagator.id op.Context w.spans,
                  .params reg ],
                spans := w.spans + 1, vars := w.vars,
                cells := fun i => if i = cell then some w.spans else w.cells i }
            ((f (propagator.Inject op.Context w.spans req) reg).1,
             wrapErr "writing to request: "
               (f (propagator.Inject op.Context w.spans req) reg).2)
      ∧ (op.Schemes = [] → op.Schemes.headD "" = "")
      ∧ (∀ s rest, op.Schemes = s :: rest → op.Schemes.headD "" = s) := by
  refine ⟨tracedParams_eq otel t op cell params formatter propagator hf hp req reg w, ?_,
    fun h => by rw [h]; rfl, fun s rest h => by rw [h]; rfl⟩
  rw [tracedParams_caller otel t op cell f formatter propagator hf hp req reg w]
  rfl

/-- C17: on a transport whose field `tracer` is nil, the span an invocation of the installed
request writer starts is started with a tracer of the tracer provider of the span the
context of the operation carries, when it carries one whose span context is valid, and
otherwise with a tracer of the tracer provider that is global when the writer is invoked;
a tracer is `tp.Tracer("go-openapi", WithInstrumentationVersion("1.0.0"))`. -/
theorem tracer_resolved_at_call_time (otel : Otel ρ) (t : openTelemetryTransport ρ α)
    (op : OperationInfo) (cell : Nat) (f : ρ → Option Registry → ρ × Option Err)
    (formatter : OperationInfo → String) (propagator : TextMapPropagator ρ)
    (htr : t.tracer = none)
    (hf : t.config.SpanNameFormatter = some formatter)
    (hp : t.config.Propagator = some propagator)
    (req : ρ) (reg : Option Registry) (w : World) :
    (∃ w1 v d,
      tracedParams otel t op cell (callerParams f) req reg w = .ok w1 v
        ∧ w1.events = w.events ++ d
        ∧ tracers d = [resolveTracer otel t op.Context])
    ∧ (∀ ctx span, op.Context = some ctx → ctx.span = some span → span.valid = true →
        resolveTracer otel t op.Context
          = { provider := span.provider, name := "go-openapi", version := "1.0.0" })
    ∧ ((∀ ctx span, op.Context = some ctx → ctx.span = some span → span.valid = false) →
        resolveTracer otel t op.Context
          = { provider := otel.GetTracerProvider, name := "go-openapi", version := "1.0.0" }) := by
  refine ⟨⟨_, _, writeEvents otel t op formatter propagator reg w.spans,
    tracedParams_caller otel t op cell f formatter propagator hf hp req reg w, rfl, ?_⟩, ?_, ?_⟩
  · simp [tracers, writeEvents]
  · intro ctx span hc hs hv
    simp [resolveTracer, htr, hc, hs, hv, newTracer, tracerName, version, instrumentationVersion]
  · intro h
    simp only [resolveTracer, htr]
    cases hc : op.Context with
    | none => simp [newTracer, tracerName, version, instrumentationVersion]
    | some ctx =>
      cases hs : ctx.span with
      | none => simp [hs, newTracer, tracerName, version, instrumentationVersion]
      | some span =>
        have hv := h ctx span hc hs
        simp [hs, hv, newTracer, tracerName, version, instrumentationVersion]

end

/-! ## The formatter, the operation after the call, the end of the span, the registry -/

section
variable {ρ α : Type}

/-- C13: the default formatter gives the ID of the operation when it is not empty, and
otherwise what `strings.ToLower` makes of the method, an underscore and the path pattern as
it is, which for the method `GET` (lowered to `get`) and the path pattern `/widgets/{id}` is
`get_/widgets/{id}`; a transport constructed with no options has it as its formatter, and
every span a `Submit` on such a transport starts (hooks of the caller) carries the name it
gives the operation. -/
theorem defaultTransportFormatter_names_span (otel otel1 : Otel ρ)
    (transport : ClientTransport ρ α) (host : String)
    (op : ClientOperation ρ α) (w : World) (ctx : Context)
    (f : ρ → Option Registry → ρ × Option Err)
    (rd : ClientResponse → Consumer → α × Option Err)
    (hctx : op.Context = some ctx) (hparams : op.Params = callerParams f)
    (hreader : op.Reader = callerReader rd) :
    (op.ID ≠ "" → defaultTransportFormatter otel1 op.toOperationInfo = op.ID)
      ∧ (op.ID = "" → defaultTransportFormatter otel1 op.toOperationInfo
          = otel1.ToLower op.Method ++ "_" ++ op.PathPattern)
      ∧ (op.ID = "" → op.Method = "GET" → op.PathPattern = "/widgets/{id}" →
          otel1.ToLower "GET" = "get" →
          defaultTransportFormatter otel1 op.toOperationInfo = "get_/widgets/{id}")
      ∧ (newOpenTelemetryTransport otel1 transport host []).config.SpanNameFormatter
          = some (defaultTransportFormatter otel1)
      ∧ ∃ w1 v d,
          ((newOpenTelemetryTransport otel1 transport host []).Submit otel op w).2 = .ok w1 v
            ∧ w1.events = w.events ++ d
            ∧ (startCalls d).map (fun x => x.2.2.2.1)
              = List.replicate (writes d) (defaultTransportFormatter otel1 op.toOperationInfo) := by
  refine ⟨fun h => ?_, fun h => ?_, fun h hm hpp hl => ?_, rfl, ?_⟩
  · simp [defaultTransportFormatter, h]
  · simp [defaultTransportFormatter, h]
  · simp only [defaultTransportFormatter, h, hm, hpp, hl]
    decide
  · obtain ⟨w1, v, d, hsub, hev, hst⟩ :=
      Submit_caller_starts otel (newOpenTelemetryTransport otel1 transport host []) op w ctx f rd
        (defaultTransportFormatter otel1) otel1.GetTextMapPropagator hctx hparams hreader rfl rfl
    refine ⟨w1, v, d, hsub, hev, ?_⟩
    rw [hst, List.map_map]
    simp [Function.comp_def]

/-- C15 (as amended): for an operation with a context, `Submit` leaves every field of the
operation other than the two hooks as it was, and leaves in the operation the request
writer and the response reader it installed, which wrap the ones the caller supplied; it
does not put the caller's hooks back. -/
theorem Submit_leaves_hooks_installed (otel : Otel ρ) (t : openTelemetryTransport ρ α)
    (op : ClientOperation ρ α) (w : World) (ctx : Context) (hctx : op.Context = some ctx) :
    (t.Submit otel op w).1.toOperationInfo = op.toOperationInfo
      ∧ (t.Submit otel op w).1.Params = tracedParams otel t op.toOperationInfo w.vars op.Params
      ∧ (t.Submit otel op w).1.Reader = tracedReader otel w.vars op.Reader := by
  obtain ⟨h1, -⟩ := Submit_of_context otel t op w ctx hctx
  rw [h1]
  exact ⟨rfl, rfl, rfl⟩

/-- C19 (as amended): for an operation with a context whose hooks are the caller's, on a
transport whose formatter and propagator are not nil, `Submit` returns, and if the
transport invoked the request writer exactly once, then of the calls `Submit` adds to the
log exactly one starts a span, the last one ends that span, and no call before the last
ends a span: the span is ended once, and after that nothing is done to it, or at all. -/
theorem Submit_end_is_last (otel : Otel ρ) (t : openTelemetryTransport ρ α)
    (op : ClientOperation ρ α) (w : World) (ctx : Context)
    (f : ρ → Option Registry → ρ × Option Err)
    (rd : ClientResponse → Consumer → α × Option Err)
    (formatter : OperationInfo → String) (propagator : TextMapPropagator ρ)
    (hctx : op.Context = some ctx) (hparams : op.Params = callerParams f)
    (hreader : op.Reader = callerReader rd)
    (hf : t.config.SpanNameFormatter = some formatter)
    (hp : t.config.Propagator = some propagator) :
    ∃ w1 v d,
      (t.Submit otel op w).2 = .ok w1 v
        ∧ w1.events = w.events ++ d
        ∧ (writes d = 1 →
            ∃ pre, d = pre ++ [.End w.spans]
              ∧ started d = [w.spans]
              ∧ ended d = [w.spans]
              ∧ ended pre = []
              ∧ d.getLast? = some (.End w.spans)) := by
  obtain ⟨w0, w1, res, err, d, -, hsub, hev, hst, hen, -⟩ :=
    Submit_caller otel t op w ctx f rd formatter propagator hctx hparams hreader hf hp
  obtain ⟨c1, c2, c3⟩ :=
    closeEvents_counts (if writes d = 0 then none else some (w.spans + writes d - 1)) err
  refine ⟨w1, _, d ++ closeEvents (if writes d = 0 then none else some (w.spans + writes d - 1)) err,
    hsub, by rw [hev, List.append_assoc], ?_⟩
  intro h
  rw [writes_append, c2, Nat.add_zero] at h
  have hs : (if writes d = 0 then none else some (w.spans + writes d - 1)) = some w.spans := by
    simp [h]
  simp only [hs] at c1 c3 ⊢
  cases err with
  | none =>
    refine ⟨d, rfl, ?_, ?_, hen, ?_⟩
    · rw [started_append, c1, hst, h]; simp
    · rw [ended_append, c3, hen]; simp
    · simp [closeEvents]
  | some e =>
    refine ⟨d ++ [.RecordError w.spans e, .SetStatus w.spans .Error e.Error], ?_, ?_, ?_, ?_, ?_⟩
    · simp [closeEvents]
    · rw [started_append, c1, hst, h]; simp
    · rw [ended_append, c3, hen]; simp
    · rw [ended_append, hen]; simp [ended, Event.ended?]
    · simp [closeEvents]

end

section
variable {ρ : Type}

/-- C20: the writer `Compose` returns does the same whatever registry it is given, namely
what it does with a nil registry; composed of one writer, it does what that writer does
with a nil registry (the error wrapped); and every invocation of a component, made
observable, is one with a nil registry. -/
theorem Compose_passes_nil_registry (auths : List (Option (ClientAuthInfoWriter ρ)))
    (ws : List (ClientAuthInfoWriter ρ)) (w : ClientAuthInfoWriter ρ) (r : ρ)
    (reg : Option Registry) :
    Compose auths r reg = Compose auths r none
      ∧ Compose [some w] r reg
        = ((w r none).1, wrapErr "authenticating request: " (w r none).2)
      ∧ (∀ x ∈ (Compose ((recordingFrom 0 ws).map some) (r, []) reg).1.2, x.2 = none)
      ∧ Compose [some (fun (x : MemRequest) (g : Option Registry) =>
            ClientRequest.SetHeaderParam x "X-Registry" [if g = none then "nil" else "given"])]
          ⟨[], []⟩ (some ⟨1⟩)
        = (⟨[("X-Registry", ["nil"])], []⟩, none) := by
  refine ⟨rfl, ?_, ?_, by decide⟩
  · simp only [Compose, Compose.loop]
    rcases w r none with ⟨r1, _ | err⟩ <;> rfl
  · intro x hx
    have h := Compose.loop_recording ws 0 r []
    simp only [Compose] at hx
    rw [h] at hx
    simp only [List.nil_append, List.mem_map] at hx
    obtain ⟨j, -, rfl⟩ := hx
    rfl

end

/-! ## The installed hooks on the examples -/

/-- An instance of C11: a 404 read while span 0 is the span of the call. -/
theorem tracedReader_tags_status_witness :
    (World.init.declare.setSpan 0 0).span 0 = some 0
    ∧ (tracedReader otel0 0 (callerReader (fun response _ => (response.Code.toNat, none)))
          ⟨404, "Not Found"⟩ ⟨1⟩ (World.init.declare.setSpan 0 0)).world.events
      = [ .SetAttributes 0 [("http.status_code", .Int 404)],
          .SetStatus 0 .Error "",
          .reader ⟨404, "Not Found"⟩ ⟨1⟩ ]
    ∧ (tracedReader otel0 0 (callerReader (fun response _ => (response.Code.toNat, none)))
          ⟨404, "Not Found"⟩ ⟨1⟩ World.init.declare).world.events
      = [ .reader ⟨404, "Not Found"⟩ ⟨1⟩ ] :=
  ⟨rfl,
   (congrArg (fun o => o.world.events)
      ((tracedReader_tags_status otel0 0
        (callerReader (fun response _ => (response.Code.toNat, none)))
        (fun response _ => (response.Code.toNat, none))
        ⟨404, "Not Found"⟩ ⟨1⟩ (World.init.declare.setSpan 0 0)).1 0 rfl).2).trans (by decide),
   (congrArg (fun o => o.world.events)
      ((tracedReader_tags_status otel0 0
        (callerReader (fun response _ => (response.Code.toNat, none)))
        (fun response _ => (response.Code.toNat, none))
        ⟨404, "Not Found"⟩ ⟨1⟩ World.init.declare).2 rfl).2).trans (by decide)⟩

/-- C12, counterexample: on a transport constructed with `WithSpanNameFormatter(nil)` an
invocation of the installed request writer panics before it runs the writer of the caller:
the call does not return and the writer of the caller is not run at all. -/
theorem tracedParams_nil_formatter_skips_writer :
    (newOpenTelemetryTransport otel0 roundTrip "example.org"
        [.WithSpanNameFormatter none]).config.SpanNameFormatter = none
    ∧ (tracedParams otel0
          (newOpenTelemetryTransport otel0 roundTrip "example.org" [.WithSpanNameFormatter none])
          (widgetsInfo (some ⟨1, none⟩)) 0
          (callerParams (fun r _ => ClientRequest.SetQueryParam r "id" ["7"]))
          ⟨[], []⟩ (some ⟨1⟩) World.init.declare).result = none
    ∧ hookCalls (tracedParams otel0
          (newOpenTelemetryTransport otel0 roundTrip "example.org" [.WithSpanNameFormatter none])
          (widgetsInfo (some ⟨1, none⟩)) 0
          (callerParams (fun r _ => ClientRequest.SetQueryParam r "id" ["7"]))
          ⟨[], []⟩ (some ⟨1⟩) World.init.declare).world.events = [] := by
  refine ⟨rfl, by decide, by decide⟩

/-- An instance of C12 as amended: a writer of the caller that fails, under the installed
writer, and a reader of the caller under the installed reader. -/
theorem traced_hooks_delegate_once_witness :
    (newOpenTelemetryTransport otel0 roundTrip "example.org" []).config.SpanNameFormatter
        = some (defaultTransportFormatter otel0)
    ∧ (newOpenTelemetryTransport otel0 roundTrip "example.org" []).config.Propagator
        = some otel0.GetTextMapPropagator
    ∧ (tracedParams otel0 (newOpenTelemetryTransport otel0 roundTrip "example.org" [])
          (widgetsInfo (some ⟨1, none⟩)) 0
          (callerParams (fun r _ => ClientRequest.SetQueryParam r "" ["7"]))
          ⟨[], []⟩ (some ⟨1⟩) World.init.declare).result
      = some (⟨[("Traceparent", ["0"])], []⟩,
          some (Err.wrap "writing to request: " (Err.new "empty query parameter name")))
    ∧ hookCalls (tracedParams otel0 (newOpenTelemetryTransport otel0 roundTrip "example.org" [])
          (widgetsInfo (some ⟨1, none⟩)) 0
          (callerParams (fun r _ => ClientRequest.SetQueryParam r "" ["7"]))
          ⟨[], []⟩ (some ⟨1⟩) World.init.declare).world.events
      = [.params (some ⟨1⟩)]
    ∧ (tracedReader otel0 0 (callerReader (fun response _ => (response.Code.toNat, none)))
          ⟨404, "Not Found"⟩ ⟨1⟩ World.init.declare).result = some (404, none)
    ∧ hookCalls (tracedReader otel0 0
          (callerReader (fun response _ => (response.Code.toNat, none)))
          ⟨404, "Not Found"⟩ ⟨1⟩ World.init.declare).world.events
      = [.reader ⟨404, "Not Found"⟩ ⟨1⟩] :=
  have h := traced_hooks_delegate_once otel0
    (newOpenTelemetryTransport otel0 roundTrip "example.org" [])
    (widgetsInfo (some ⟨1, none⟩)) 0 (fun r _ => ClientRequest.SetQueryParam r "" ["7"])
    (fun response _ => (response.Code.toNat, none))
    ⟨[], []⟩ (some ⟨1⟩) ⟨404, "Not Found"⟩ ⟨1⟩ World.init.declare
  ⟨rfl, rfl,
   by decide,
   by obtain ⟨w1, d, h1, h2, h3⟩ :=
        h.1 (defaultTransportFormatter otel0) otel0.GetTextMapPropagator rfl rfl
      rw [h1]
      show hookCalls w1.events = _
      rw [h2]
      exact h3,
   by decide,
   by obtain ⟨w1, d, h1, h2, h3⟩ := h.2.1
      rw [h1]
      show hookCalls w1.events = _
      rw [h2]
      exact h3⟩

/-- An instance of C13: `GET /widgets/{id}` without an ID, and with the ID `getWidget`. -/
theorem defaultTransportFormatter_names_span_witness :
    (widgets (some ⟨1, none⟩)).Context = some ⟨1, none⟩
    ∧ otel0.ToLower "GET" = "get"
    ∧ defaultTransportFormatter otel0 (widgets (some ⟨1, none⟩)).toOperationInfo
      = "get_/widgets/{id}"
    ∧ defaultTransportFormatter otel0 { widgetsInfo none with ID := "getWidget" } = "getWidget"
    ∧ (startCalls ((newOpenTelemetryTransport otel0 roundTrip "example.org" []).Submit otel0
          (widgets (some ⟨1, none⟩)) World.init).2.world.events).map (fun x => x.2.2.2.1)
      = ["get_/widgets/{id}"] :=
  ⟨rfl, by decide,
   (defaultTransportFormatter_names_span otel0 otel0 roundTrip "example.org"
      (widgets (some ⟨1, none⟩)) World.init ⟨1, none⟩
      (fun r _ => ClientRequest.SetQueryParam r "id" ["7"])
      (fun response _ => (response.Code.toNat, none)) rfl rfl rfl).2.2.1 rfl rfl rfl (by decide),
   by decide, by decide⟩

/-- C15, counterexample: after `Submit` on the round trip the request writer of the
operation is not the one the caller supplied: invoked, it starts a span, which the writer of
the caller does not. -/
theorem Submit_does_not_restore_hooks :
    ((newOpenTelemetryTransport otel0 roundTrip "example.org" []).Submit otel0
        (widgets (some ⟨1, none⟩)) World.init).1.Params
      ≠ (widgets (some ⟨1, none⟩)).Params
    ∧ started (((newOpenTelemetryTransport otel0 roundTrip "example.org" []).Submit otel0
        (widgets (some ⟨1, none⟩)) World.init).1.Params ⟨[], []⟩ none World.init).world.events
      = [0]
    ∧ started ((widgets (some ⟨1, none⟩)).Params ⟨[], []⟩ none World.init).world.events = [] := by
  refine ⟨fun h => ?_, by decide, by decide⟩
  have h1 := congrArg (fun p => started (p ⟨[], []⟩ none World.init).world.events) h
  revert h1
  decide

/-- An instance of C15 as amended. -/
theorem Submit_leaves_hooks_installed_witness :
    (widgets (some ⟨1, none⟩)).Context = some ⟨1, none⟩
    ∧ ((newOpenTelemetryTransport otel0 roundTrip "example.org" []).Submit otel0
        (widgets (some ⟨1, none⟩)) World.init).1.toOperationInfo = widgetsInfo (some ⟨1, none⟩) :=
  ⟨rfl, (Submit_leaves_hooks_installed otel0
    (newOpenTelemetryTransport otel0 roundTrip "example.org" [])
    (widgets (some ⟨1, none⟩)) World.init ⟨1, none⟩ rfl).1⟩

/-- C16, counterexample: on a transport constructed with `WithSpanNameFormatter(nil)` an
invocation of the installed request writer panics when it calls the formatter: it starts no
span, sets no attribute, injects nothing and does not run the original writer. -/
theorem tracedParams_nil_formatter_no_steps :
    (newOpenTelemetryTransport otel0 roundTrip "example.org"
        [.WithSpanNameFormatter none]).config.SpanNameFormatter = none
    ∧ (tracedParams otel0
          (newOpenTelemetryTransport otel0 roundTrip "example.org" [.WithSpanNameFormatter none])
          (widgetsInfo (some ⟨1, none⟩)) 0
          (callerParams (fun r _ => ClientRequest.SetQueryParam r "id" ["7"]))
          ⟨[], []⟩ (some ⟨1⟩) World.init.declare).world.events = []
    ∧ (tracedParams otel0
          (newOpenTelemetryTransport otel0 roundTrip "example.org" [.WithSpanNameFormatter none])
          (widgetsInfo (some ⟨1, none⟩)) 0
          (callerParams (fun r _ => ClientRequest.SetQueryParam r "id" ["7"]))
          ⟨[], []⟩ (some ⟨1⟩) World.init.declare).result = none := by
  refine ⟨rfl, by decide, by decide⟩

/-- An instance of C16 as amended: the installed writer of `GET /widgets/{id}` on `example.org`. -/
theorem tracedParams_steps_witness :
    (newOpenTelemetryTransport otel0 roundTrip "example.org" []).config.SpanNameFormatter
        = some (defaultTransportFormatter otel0)
    ∧ (newOpenTelemetryTransport otel0 roundTrip "example.org" []).config.Propagator
        = some otel0.GetTextMapPropagator
    ∧ (tracedParams otel0 (newOpenTelemetryTransport otel0 roundTrip "example.org" [])
          (widgetsInfo (some ⟨1, none⟩)) 0
          (callerParams (fun r _ => ClientRequest.SetQueryParam r "id" ["7"]))
          ⟨[], []⟩ (some ⟨1⟩) World.init.declare).world.events
      = [ .Start 0 ⟨⟨0⟩, "go-openapi", "1.0.0"⟩ (some ⟨1, none⟩) "get_/widgets/{id}"
            [.WithSpanKind .SpanKindClient],
          .SetAttributes 0
            [ ("net.peer.name", .String "example.org"),
              ("http.route", .String "/widgets/{id}"),
              ("http.method", .String "GET"),
              ("span.kind", .String "client"),
              ("http.scheme", .String "https") ],
          .Inject 0 (some ⟨1, none⟩) 0,
          .params (some ⟨1⟩) ] :=
  ⟨rfl, rfl,
   (congrArg (fun o => o.world.events)
      (tracedParams_steps otel0 (newOpenTelemetryTransport otel0 roundTrip "example.org" [])
        (widgetsInfo (some ⟨1, none⟩)) 0
        (callerParams (fun r _ => ClientRequest.SetQueryParam r "id" ["7"]))
        (fun r _ => ClientRequest.SetQueryParam r "id" ["7"])
        (defaultTransportFormatter otel0) otel0.GetTextMapPropagator rfl rfl
        ⟨[], []⟩ (some ⟨1⟩) World.init.declare).2.1).trans (by decide)⟩

/-- An instance of C17: the context carries a valid span of provider 3, the global provider
is provider 0, and the transport was constructed with no options. -/
theorem tracer_resolved_at_call_time_witness :
    (newOpenTelemetryTransport otel0 roundTrip "example.org" []).tracer = none
    ∧ resolveTracer otel0 (newOpenTelemetryTransport otel0 roundTrip "example.org" [])
        (widgetsInfo (some ⟨1, some ⟨true, ⟨3⟩⟩⟩)).Context
      = ⟨⟨3⟩, "go-openapi", "1.0.0"⟩
    ∧ resolveTracer otel0 (newOpenTelemetryTransport otel0 roundTrip "example.org" [])
        (widgetsInfo (some ⟨1, none⟩)).Context
      = ⟨⟨0⟩, "go-openapi", "1.0.0"⟩ :=
  ⟨rfl,
   (tracer_resolved_at_call_time otel0
      (newOpenTelemetryTransport otel0 roundTrip "example.org" [])
      (widgetsInfo (some ⟨1, some ⟨true, ⟨3⟩⟩⟩)) 0
      (fun r _ => ClientRequest.SetQueryParam r "id" ["7"])
      (defaultTransportFormatter otel0) otel0.GetTextMapPropagator rfl rfl rfl
      ⟨[], []⟩ none World.init).2.1 ⟨1, some ⟨true, ⟨3⟩⟩⟩ ⟨true, ⟨3⟩⟩ rfl rfl rfl,
   (tracer_resolved_at_call_time otel0
      (newOpenTelemetryTransport otel0 roundTrip "example.org" [])
      (widgetsInfo (some ⟨1, none⟩)) 0
      (fun r _ => ClientRequest.SetQueryParam r "id" ["7"])
      (defaultTransportFormatter otel0) otel0.GetTextMapPropagator rfl rfl rfl
      ⟨[], []⟩ none World.init).2.2
      (fun ctx span hc hs => by cases hc; cases hs)⟩

/-- C19, counterexample: on a transport constructed with `WithSpanNameFormatter(nil)` the
round trip invokes the request writer exactly once, the writer panics, and `Submit` panics
with no span started and none ended. -/
theorem Submit_nil_formatter_no_span :
    (widgets (some ⟨1, none⟩)).Context = some ⟨1, none⟩
    ∧ writes ((newOpenTelemetryTransport otel0 roundTrip "example.org"
        [.WithSpanNameFormatter none]).Submit otel0
        (widgets (some ⟨1, none⟩)) World.init).2.world.events = 1
    ∧ started ((newOpenTelemetryTransport otel0 roundTrip "example.org"
        [.WithSpanNameFormatter none]).Submit otel0
        (widgets (some ⟨1, none⟩)) World.init).2.world.events = []
    ∧ ended ((newOpenTelemetryTransport otel0 roundTrip "example.org"
        [.WithSpanNameFormatter none]).Submit otel0
        (widgets (some ⟨1, none⟩)) World.init).2.world.events = []
    ∧ ((newOpenTelemetryTransport otel0 roundTrip "example.org"
        [.WithSpanNameFormatter none]).Submit otel0
        (widgets (some ⟨1, none⟩)) World.init).2.result = none := by
  decide

/-- An instance of C19 as amended: the round trip that ends in a 404.  The request writer is
invoked once, span 0 is the one span started and the one span ended, and its end is the
last call. -/
theorem Submit_end_is_last_witness :
    (widgets (some ⟨1, none⟩)).Context = some ⟨1, none⟩
    ∧ writes ((newOpenTelemetryTransport otel0 roundTrip "example.org" []).Submit otel0
        (widgets (some ⟨1, none⟩)) World.init).2.world.events = 1
    ∧ started ((newOpenTelemetryTransport otel0 roundTrip "example.org" []).Submit otel0
        (widgets (some ⟨1, none⟩)) World.init).2.world.events = [0]
    ∧ ended ((newOpenTelemetryTransport otel0 roundTrip "example.org" []).Submit otel0
        (widgets (some ⟨1, none⟩)) World.init).2.world.events = [0]
    ∧ ((newOpenTelemetryTransport otel0 roundTrip "example.org" []).Submit otel0
        (widgets (some ⟨1, none⟩)) World.init).2.world.events.getLast? = some (.End 0)
    ∧ ∃ w1 v d,
      ((newOpenTelemetryTransport otel0 roundTrip "example.org" []).Submit otel0
          (widgets (some ⟨1, none⟩)) World.init).2 = .ok w1 v
        ∧ w1.events = World.init.events ++ d
        ∧ (writes d = 1 →
            ∃ pre, d = pre ++ [.End World.init.spans]
              ∧ started d = [World.init.spans]
              ∧ ended d = [World.init.spans]
              ∧ ended pre = []
              ∧ d.getLast? = some (.End World.init.spans)) :=
  ⟨rfl, by decide, by decide, by decide, by decide,
   Submit_end_is_last otel0 (newOpenTelemetryTransport otel0 roundTrip "example.org" [])
    (widgets (some ⟨1, none⟩)) World.init ⟨1, none⟩
    (fun r _ => ClientRequest.SetQueryParam r "id" ["7"])
    (fun response _ => (response.Code.toNat, none))
    (defaultTransportFormatter otel0) otel0.GetTextMapPropagator rfl rfl rfl rfl rfl⟩

end Client
